import Mathlib

/-!
# Mapgen scripting API (src/script/lua_api/l_mapgen.cpp)

A shallow embedding of the registration entry points of `ModApiMapgen`
(`l_register_biome`, `l_register_decoration`, `l_register_ore`), of
`read_schematic_replacements`, `l_get_mapgen_object` and `l_place_schematic`,
followed by theorems about them.

Conventions of the embedding.

* Heap records (`new Biome`, `new DecoSimple`, ...) are identified by an object
  number handed out by an allocation counter; `delete` removes the object from
  the set of live objects.  A resolver slot `&b->c_top` is the pair of the
  object number and the field.
* The description table passed by the script is seen through the marshalling
  helpers (`getstringfield`, `getintfield`, `getstringlistfield`,
  `lua_getfield`), which live outside this file.
* Float-valued fields (`heat_point`, `humidity_point`, `fill_ratio`,
  `nthresh`), noise parameters and the flag words filled by `getflagsfield` are
  only stored by the code, never tested; they are left out of the records.
-/

namespace ModApiMapgen

/-! ## Lua values as seen through the C API -/

/-- A Lua value.  A table is the sequence of its key/value pairs in the order
in which `lua_next` traverses them. -/
inductive LuaValue where
  | nil : LuaValue
  | boolean (b : Bool) : LuaValue
  | number (n : Int) : LuaValue
  | string (s : String) : LuaValue
  | table (kv : List (LuaValue × LuaValue)) : LuaValue

/-- `lua_istable`. -/
def lua_istable : LuaValue → Bool
  | .table _ => true
  | _ => false

/-- `lua_isboolean`. -/
def lua_isboolean : LuaValue → Bool
  | .boolean _ => true
  | _ => false

/-- `lua_toboolean`: false for `nil` and `false`, true for everything else. -/
def lua_toboolean : LuaValue → Bool
  | .nil => false
  | .boolean b => b
  | _ => true

/-- `lua_isstring`: true for a string and for a number (which Lua converts). -/
def lua_isstring : LuaValue → Bool
  | .string _ => true
  | .number _ => true
  | _ => false

/-- `lua_tostring`: a pointer to the bytes of a string, to the text Lua
formats a number into (`number2str`, the `LUAI_NUMFFORMAT` conversion of Lua,
which is not part of this file), `NULL` for anything else.  The pointer gives
access to all the bytes; see `c_str` for what a `std::string` takes from it. -/
def lua_tostring (number2str : Int → String) : LuaValue → Option String
  | .string s => some s
  | .number n => some (number2str n)
  | _ => none

/-- The `std::string` built from a `const char *` (by assignment, by the
constructor or by an implicit conversion): the text up to the first NUL. -/
def c_str (s : String) : String :=
  String.mk (s.data.takeWhile (fun c => c != Char.ofNat 0))

/-- Is the value of type string (`lua_type(L, i) == LUA_TSTRING`), as opposed
to convertible to one? -/
def lua_type_is_string : LuaValue → Bool
  | .string _ => true
  | _ => false

/-- Is the value the number `n`?  (Key comparison of `lua_rawgeti`.) -/
def LuaValue.isNumber (n : Int) : LuaValue → Bool
  | .number m => m == n
  | _ => false

/-- `lua_rawgeti(L, t, n)`: the value stored under the integer key `n`,
`nil` when there is none (or when `t` is not a table). -/
def lua_rawgeti : LuaValue → Int → LuaValue
  | .table kv, n =>
    match kv.find? (fun p => p.1.isNumber n) with
    | some p => p.2
    | none => .nil
  | _, _ => .nil

/-- The pairs visited by a `lua_pushnil` / `lua_next` loop over the value. -/
def lua_pairs : LuaValue → List (LuaValue × LuaValue)
  | .table kv => kv
  | _ => []

/-- The description table at stack index 1 as the marshalling helpers of
common/c_converter report it: `getstringfield` and `getintfield` give the
field when it has the asked type, `getstringlistfield` the list of strings
(empty when the field is missing; the helper hands the strings over as
`const char *`, so an entry is the text up to its first NUL), `getfield` is the
raw `lua_getfield`. -/
structure LuaTable where
  getstringfield : String → Option String
  getintfield : String → Option Int
  getstringlistfield : String → List String
  getfield : String → LuaValue

/-- `getstringfield_default(L, table, fieldname, default)`: the field, or the
default when `getstringfield` finds no string. -/
def getstringfield_default (t : LuaTable) (fieldname : String) (default_ : String) : String :=
  (t.getstringfield fieldname).getD default_

/-- `getintfield_default(L, table, fieldname, default)`: the field, or the
default when `getintfield` finds no number. -/
def getintfield_default (t : LuaTable) (fieldname : String) (default_ : Int) : Int :=
  (t.getintfield fieldname).getD default_

/-- Modelled from the spec: `string_to_enum(spec, result, str)` is not in src.
It is the lookup of a string in an enum table (spec §7 speaks of an "unknown
enum string"): the rows are tried in order up to the end marker, and the first
row whose string is `str` gives the number.  `some num` stands for "returns
true with `result = num`", `none` for "returns false, `result` untouched". -/
def string_to_enum {α : Type} (spec : List (α × String)) (str : String) : Option α :=
  match spec.find? (fun e => e.2 == str) with
  | some e => some e.1
  | none => none

/-- `getenumfield(L, table, fieldname, spec, default)` of common/c_converter:
`result` starts as `default` and `string_to_enum` runs on the string field read
with default `""`. -/
def getenumfield {α : Type} (t : LuaTable) (fieldname : String)
    (spec : List (α × String)) (default_ : α) : α :=
  (string_to_enum spec (getstringfield_default t fieldname "")).getD default_

/-! ## Enumerations and their string tables -/

inductive BiomeType where
  | BIOME_TYPE_NORMAL | BIOME_TYPE_LIQUID | BIOME_TYPE_NETHER | BIOME_TYPE_AETHER | BIOME_TYPE_FLAT
  deriving DecidableEq, Repr

inductive DecorationType where
  | DECO_SIMPLE | DECO_SCHEMATIC | DECO_LSYSTEM
  deriving DecidableEq, Repr

inductive MapgenObject where
  | MGOBJ_VMANIP | MGOBJ_HEIGHTMAP | MGOBJ_BIOMEMAP | MGOBJ_HEATMAP | MGOBJ_HUMIDMAP | MGOBJ_GENNOTIFY
  deriving DecidableEq, Repr

inductive OreType where
  | ORE_SCATTER | ORE_SHEET | ORE_CLAYLIKE
  deriving DecidableEq, Repr

inductive Rotation where
  | ROTATE_0 | ROTATE_90 | ROTATE_180 | ROTATE_270 | ROTATE_RAND
  deriving DecidableEq, Repr

open BiomeType DecorationType MapgenObject OreType Rotation

def es_BiomeTerrainType : List (BiomeType × String) :=
  [(BIOME_TYPE_NORMAL, "normal"), (BIOME_TYPE_LIQUID, "liquid"), (BIOME_TYPE_NETHER, "nether"),
   (BIOME_TYPE_AETHER, "aether"), (BIOME_TYPE_FLAT, "flat")]

/-- The decoration types by name.  `getenumfield` is called with default `-1`,
which is no decoration type: the table is over `Option DecorationType` and
`none` stands for `-1`. -/
def es_DecorationType : List (Option DecorationType × String) :=
  [(some DECO_SIMPLE, "simple"), (some DECO_SCHEMATIC, "schematic"), (some DECO_LSYSTEM, "lsystem")]

def es_MapgenObject : List (MapgenObject × String) :=
  [(MGOBJ_VMANIP, "voxelmanip"), (MGOBJ_HEIGHTMAP, "heightmap"), (MGOBJ_BIOMEMAP, "biomemap"),
   (MGOBJ_HEATMAP, "heatmap"), (MGOBJ_HUMIDMAP, "humiditymap"), (MGOBJ_GENNOTIFY, "gennotify")]

def es_OreType : List (OreType × String) :=
  [(ORE_SCATTER, "scatter"), (ORE_SHEET, "sheet"), (ORE_CLAYLIKE, "claylike")]

def es_Rotation : List (Rotation × String) :=
  [(ROTATE_0, "0"), (ROTATE_90, "90"), (ROTATE_180, "180"), (ROTATE_270, "270"),
   (ROTATE_RAND, "random")]

/-! ## Constants and collaborators declared outside this file -/

/-- The failure id `(u32)-1`. -/
def U32_MAX : Nat := 4294967295

/-- The content-id fields of the records that the resolver writes into. -/
inductive SlotField where
  | c_top | c_filler | c_water | c_dust | c_dust_water
  | c_place_on | c_decos | c_spawnby
  | c_wherein | c_ore
  deriving DecidableEq, Repr

/-- A pointer to a content-id field of a heap record, such as `&b->c_top`. -/
structure Slot where
  obj : Nat
  field : SlotField
  deriving DecidableEq, Repr

/-- A biome record.  `obj` is the identity of the heap object, `id` the id
that `add` assigns. -/
structure Biome where
  obj : Nat
  id : Nat
  type : BiomeType
  name : String
  depth_top : Int
  depth_filler : Int
  height_min : Int
  height_max : Int
  flags : Nat
  deriving DecidableEq, Repr

/-- A decoration record: the fields of `Decoration` followed by those of
`DecoSimple` and of `DecoSchematic` (`σ` is the type of loaded schematics). -/
structure Decoration (σ : Type) where
  obj : Nat
  id : Nat
  type : Option DecorationType
  name : String
  sidelen : Int
  biomes : Finset Int
  deco_height : Int
  deco_height_max : Int
  nspawnby : Int
  rotation : Rotation
  schematic : Option σ

/-- An ore record. -/
structure Ore where
  obj : Nat
  id : Nat
  type : OreType
  name : String
  ore_param2 : Int
  clust_scarcity : Int
  clust_num_ores : Int
  clust_size : Int
  height_min : Int
  height_max : Int
  deriving DecidableEq, Repr

/-- What this file uses and does not define.

* `CONTENT_AIR`, `CONTENT_IGNORE`: the two content-id constants.
* `narrow field v`: the value the record field `field` holds after `v` (an
  `int` from the marshalling helper, or a biome id for the set `biomes`) is
  assigned to it; the field types are declared in the mapgen headers.
* `deco_create`, `ore_create`: whether `create(kind)` of the decoration / ore
  manager returns a record (rather than `NULL`) for the kind.
* `biome_rejects`, `deco_rejects`, `ore_rejects`: the structural precondition
  under which `add` of the respective manager refuses a record.
* `get_schematic value replace_names`: the schematic loaded from the Lua value
  at the given index with the replacement table applied, `none` on failure.
* `number2str n`: the text Lua formats the number `n` into. -/
structure Env (σ : Type) where
  CONTENT_AIR : Nat
  CONTENT_IGNORE : Nat
  narrow : String → Int → Int
  deco_create : Option DecorationType → Bool
  ore_create : OreType → Bool
  biome_rejects : List Biome → Biome → Bool
  deco_rejects : List (Decoration σ) → Decoration σ → Bool
  ore_rejects : List Ore → Ore → Bool
  get_schematic : LuaValue → (String → Option String) → Option σ
  number2str : Int → String

/-! ## Deferred node resolver -/

/-- Modelled from the spec: the pending entries of `NodeResolver`, which is not
in src.  Spec §3: a pending resolution entry is (symbolic name, fallback name,
default content-id, slot to be written, single-slot or list-append mode).
`node` is what `addNode(symbolicName, fallbackName, defaultId, &slot)` registers,
`nodeList` what `addNodeList(symbolicName, &listSlot)` registers. -/
inductive PendingEntry where
  | node (n_wanted : String) (n_alt : String) (c_fallback : Nat) (output : Slot)
  | nodeList (nodename : String) (output : Slot)
  deriving DecidableEq, Repr

/-- The state the entry points act on: the heap (allocation counter and live
objects), the resolver's pending entries in registration order, the three
feature managers, and the content-id fields of the records (`content` for the
scalar fields, `content_vec` for the vector fields). -/
structure World (σ : Type) where
  next_obj : Nat
  live : List Nat
  pending : List PendingEntry
  biomemgr : List Biome
  decomgr : List (Decoration σ)
  oremgr : List Ore
  content : Slot → Option Nat
  content_vec : Slot → List Nat

/-- A world in which nothing was registered yet. -/
def World.empty (σ : Type) : World σ :=
  { next_obj := 0, live := [], pending := [], biomemgr := [], decomgr := [], oremgr := [],
    content := fun _ => none, content_vec := fun _ => [] }

/-- Allocation of a record (`new T`): a fresh object number. -/
def World.new {σ : Type} (w : World σ) : Nat × World σ :=
  (w.next_obj, { w with next_obj := w.next_obj + 1, live := w.live ++ [w.next_obj] })

/-- Destruction of a record (`delete p`). -/
def World.delete {σ : Type} (w : World σ) (o : Nat) : World σ :=
  { w with live := w.live.filter (fun x => x != o) }

/-- Modelled from the spec: `NodeResolver::addNode` is not in src.  Spec §4.2:
it registers a pending entry and always succeeds; resolution is deferred. -/
def World.addNode {σ : Type} (w : World σ) (n_wanted n_alt : String) (c_fallback : Nat)
    (output : Slot) : World σ :=
  { w with pending := w.pending ++ [PendingEntry.node n_wanted n_alt c_fallback output] }

/-- Modelled from the spec: `NodeResolver::addNodeList` is not in src.  Spec
§4.2: it registers a pending list-mode entry and always succeeds. -/
def World.addNodeList {σ : Type} (w : World σ) (nodename : String) (output : Slot) : World σ :=
  { w with pending := w.pending ++ [PendingEntry.nodeList nodename output] }

/-- The loop `for (i = 0; i != names.size(); i++) resolver->addNodeList(names[i], slot)`. -/
def World.addNodeLists {σ : Type} (w : World σ) (names : List String) (output : Slot) : World σ :=
  names.foldl (fun w n => w.addNodeList n output) w

/-- Modelled from the spec: the id a pending entry resolves to (spec §4.2 and
§8): `lookup(symbolicName)` if present, else `lookup(fallbackName)` if present,
else the supplied default. -/
def resolveNode (lookup : String → Option Nat) (n_wanted n_alt : String) (c_fallback : Nat) : Nat :=
  match lookup n_wanted with
  | some c => c
  | none =>
    match lookup n_alt with
    | some c => c
    | none => c_fallback

/-- Modelled from the spec: the effect of flushing one pending entry (spec
§4.2).  A single-slot entry overwrites its slot with the resolved id; a
list-mode entry appends the resolved id to its list.  The spec gives a
list-mode entry neither a fallback name nor a default: what it appends when its
name is absent from the content table is the parameter `list_absent`. -/
def flushEntry {σ : Type} (lookup : String → Option Nat) (list_absent : String → List Nat)
    (w : World σ) : PendingEntry → World σ
  | .node n_wanted n_alt c_fallback output =>
    let c := resolveNode lookup n_wanted n_alt c_fallback
    { w with content := Function.update w.content output (some c) }
  | .nodeList nodename output =>
    let cs := match lookup nodename with
      | some c => [c]
      | none => list_absent nodename
    { w with content_vec := Function.update w.content_vec output (w.content_vec output ++ cs) }

/-- Modelled from the spec: `flush(contentTable)` of the resolver, which is not
in src.  Spec §4.2: every pending entry is resolved, in registration order, and
then discarded. -/
def World.flush {σ : Type} (lookup : String → Option Nat) (list_absent : String → List Nat)
    (w : World σ) : World σ :=
  let w := w.pending.foldl (flushEntry lookup list_absent) w
  { w with pending := [] }

/-! ## Feature managers -/

/-- Modelled from the spec: `add` of the feature managers is not in src.  Spec
§4.1: it assigns the next id (ids are dense, so the next id is the number of
records held) and returns it; it returns the failure id, leaving the registry
as it was, if a structural precondition fails (`rejects`) or the identifier
space is exhausted. -/
def GenElementManager.add {α : Type} (rejects : List α → α → Bool) (setId : α → Nat → α)
    (elems : List α) (e : α) : Nat × List α :=
  if rejects elems e || decide (U32_MAX ≤ elems.length) then (U32_MAX, elems)
  else (elems.length, elems ++ [setId e elems.length])

/-- Modelled from the spec: `getByName` of the biome manager is not in src.
Spec §3/§4.1: the name lookup returns the first match, or null. -/
def BiomeManager.getByName (elems : List Biome) (name : String) : Option Biome :=
  elems.find? (fun b => b.name == name)

def Biome.setId (b : Biome) (id : Nat) : Biome := { b with id := id }

def Decoration.setId {σ : Type} (d : Decoration σ) (id : Nat) : Decoration σ := { d with id := id }

def Ore.setId (o : Ore) (id : Nat) : Ore := { o with id := id }

/-- What an entry point leaves behind: the values it returns to the script
(`return 0` is the empty list, `return 1` after `lua_pushinteger(L, id)` is
the one number) and the world. -/
structure Result (σ : Type) where
  ret : List LuaValue
  world : World σ

/-! ## register_biome -/

/-- The record `l_register_biome` fills in between `create` and `add`, for
the object `o` that `create` returned. -/
def read_biome {σ : Type} (env : Env σ) (t : LuaTable) (o : Nat) : Biome :=
  { obj := o, id := 0,
    type := getenumfield t "type" es_BiomeTerrainType BIOME_TYPE_NORMAL,
    name := getstringfield_default t "name" "",
    depth_top := env.narrow "depth_top" (getintfield_default t "depth_top" 1),
    depth_filler := env.narrow "depth_filler" (getintfield_default t "depth_filler" 3),
    height_min := env.narrow "height_min" (getintfield_default t "height_min" 0),
    height_max := env.narrow "height_max" (getintfield_default t "height_max" 0),
    flags := 0 }

/-- `ModApiMapgen::l_register_biome`.  `bmgr->create(biometype)` is used
without a null check: it is an allocation. -/
def l_register_biome {σ : Type} (env : Env σ) (t : LuaTable) (w : World σ) : Result σ :=
  let o := w.new.1
  let w := w.new.2
  let b := read_biome env t o
  let added := GenElementManager.add env.biome_rejects Biome.setId w.biomemgr b
  let id := added.1
  if id = U32_MAX then
    ⟨[], w.delete o⟩
  else
    -- Pend node resolutions only if insertion succeeded
    let w := { w with biomemgr := added.2 }
    let w := w.addNode (getstringfield_default t "node_top" "")
      "mapgen_dirt_with_grass" env.CONTENT_AIR ⟨o, .c_top⟩
    let w := w.addNode (getstringfield_default t "node_filler" "")
      "mapgen_dirt" env.CONTENT_AIR ⟨o, .c_filler⟩
    let w := w.addNode (getstringfield_default t "node_water" "")
      "mapgen_water_source" env.CONTENT_AIR ⟨o, .c_water⟩
    let w := w.addNode (getstringfield_default t "node_dust" "")
      "air" env.CONTENT_IGNORE ⟨o, .c_dust⟩
    let w := w.addNode (getstringfield_default t "node_dust_water" "")
      "mapgen_water_source" env.CONTENT_IGNORE ⟨o, .c_dust_water⟩
    ⟨[LuaValue.number id], w⟩

/-! ## Schematic replacement tables -/

/-- One turn of the loop of `read_schematic_replacements`: the pair
(`replace_from`, `replace_to`) read from the key `k` and the value `v`; both
are `std::string`s assigned from the `const char *` of `lua_tostring`.
`none` marks the turns this embedding does not cover: `lua_tostring` yielding
`NULL` for one of the two strings (a null pointer assigned to a `std::string`),
and, in the new format, a key that is not of type string (`lua_tostring`
rewrites such a key in place, and what `lua_next` does with the rewritten key
depends on the internals of the table). -/
def read_replacement (number2str : Int → String) (k v : LuaValue) : Option (String × String) :=
  if lua_istable v then
    -- Old {{"x", "y"}, ...} format
    match lua_tostring number2str (lua_rawgeti v 1), lua_tostring number2str (lua_rawgeti v 2) with
    | some replace_from, some replace_to => some (c_str replace_from, c_str replace_to)
    | _, _ => none
  else
    -- New {x = "y", ...} format
    match k, lua_tostring number2str v with
    | .string replace_from, some replace_to => some (c_str replace_from, c_str replace_to)
    | _, _ => none

/-- The `while (lua_next(L, index))` loop over the pairs still to visit;
`replace_names[replace_from] = replace_to` at every turn. -/
def read_schematic_replacements_loop (number2str : Int → String) :
    List (LuaValue × LuaValue) → (String → Option String) → Option (String → Option String)
  | [], replace_names => some replace_names
  | (k, v) :: rest, replace_names =>
    match read_replacement number2str k v with
    | none => none
    | some (replace_from, replace_to) =>
      read_schematic_replacements_loop number2str rest
        (Function.update replace_names replace_from (some replace_to))

/-- `read_schematic_replacements(L, replace_names, index)`; the `std::map` is
the function from keys to their values. -/
def read_schematic_replacements (number2str : Int → String)
    (replace_names : String → Option String) (tbl : LuaValue) :
    Option (String → Option String) :=
  read_schematic_replacements_loop number2str (lua_pairs tbl) replace_names

/-! ## register_decoration -/

/-- `ModApiMapgen::regDecoSimple`: the success flag, the record and the world. -/
def regDecoSimple {σ : Type} (env : Env σ) (t : LuaTable) (deco : Decoration σ) (w : World σ) :
    Bool × Decoration σ × World σ :=
  let deco := { deco with
    deco_height := env.narrow "deco_height" (getintfield_default t "height" 1)
    deco_height_max := env.narrow "deco_height_max" (getintfield_default t "height_max" 0)
    nspawnby := env.narrow "nspawnby" (getintfield_default t "num_spawn_by" (-1)) }
  if deco.deco_height ≤ 0 then
    (false, deco, w)
  else
    let deco_names := t.getstringlistfield "decoration"
    if deco_names.length = 0 then
      (false, deco, w)
    else
      let spawnby_names := t.getstringlistfield "spawn_by"
      if deco.nspawnby ≠ -1 ∧ spawnby_names.length = 0 then
        (false, deco, w)
      else
        let w := w.addNodeLists deco_names ⟨deco.obj, .c_decos⟩
        let w := w.addNodeLists spawnby_names ⟨deco.obj, .c_spawnby⟩
        (true, deco, w)

/-- `ModApiMapgen::regDecoSchematic`: the success flag and the record; `none`
when the replacement table has a turn that `read_replacement` does not cover. -/
def regDecoSchematic {σ : Type} (env : Env σ) (t : LuaTable) (deco : Decoration σ) :
    Option (Bool × Decoration σ) :=
  let deco := { deco with
    rotation := getenumfield t "rotation" es_Rotation ROTATE_0 }
  let replacements := t.getfield "replacements"
  match (if lua_istable replacements then
          read_schematic_replacements env.number2str (fun _ => none) replacements
        else some (fun _ => none)) with
  | none => none
  | some replace_names =>
    match env.get_schematic (t.getfield "schematic") replace_names with
    | none => some (false, deco)
    | some schem => some (true, { deco with schematic := some schem })

/-- The loop over `biome_list` in `l_register_decoration`: a name that
`getByName` does not find is skipped, the id of a found biome is inserted into
the set (`stored` is the conversion of the id to the element type of the set,
which is declared outside this file). -/
def insertBiomes (stored : Int → Int) (biomemgr : List Biome) (biome_list : List String)
    (biomes : Finset Int) : Finset Int :=
  biome_list.foldl (fun s name =>
    match BiomeManager.getByName biomemgr name with
    | none => s
    | some b => insert (stored b.id) s) biomes

/-- `ModApiMapgen::l_register_decoration`; `none` for the calls this
embedding does not cover (see `regDecoSchematic`). -/
def l_register_decoration {σ : Type} (env : Env σ) (t : LuaTable) (w : World σ) :
    Option (Result σ) :=
  let decotype := getenumfield t "deco_type" es_DecorationType none
  if !env.deco_create decotype then
    some ⟨[], w⟩
  else
    let o := w.new.1
    let w := w.new.2
    let deco : Decoration σ :=
      { obj := o, id := 0, type := decotype,
        name := getstringfield_default t "name" "",
        sidelen := env.narrow "sidelen" (getintfield_default t "sidelen" 8),
        biomes := ∅, deco_height := 0, deco_height_max := 0, nspawnby := 0,
        rotation := ROTATE_0, schematic := none }
    if deco.sidelen ≤ 0 then
      some ⟨[], w.delete o⟩
    else
      -- Get node name(s) to place decoration on
      let w := w.addNodeLists (t.getstringlistfield "place_on") ⟨o, .c_place_on⟩
      -- Get biomes associated with this decoration (if any)
      let deco := { deco with
        biomes := insertBiomes (env.narrow "biomes") w.biomemgr
          (t.getstringlistfield "biomes") deco.biomes }
      -- Handle decoration type-specific parameters
      let typed : Option (Bool × Decoration σ × World σ) :=
        match decotype with
        | some DECO_SIMPLE => some (regDecoSimple env t deco w)
        | some DECO_SCHEMATIC =>
          match regDecoSchematic env t deco with
          | none => none
          | some res => some (res.1, res.2, w)
        | some DECO_LSYSTEM => some (false, deco, w)
        | none => some (false, deco, w)
      match typed with
      | none => none
      | some res =>
        let success := res.1
        let deco := res.2.1
        let w := res.2.2
        if !success then
          some ⟨[], w.delete o⟩
        else
          let added := GenElementManager.add env.deco_rejects Decoration.setId w.decomgr deco
          let id := added.1
          if id = U32_MAX then
            some ⟨[], w.delete o⟩
          else
            some ⟨[LuaValue.number id], { w with decomgr := added.2 }⟩

/-! ## register_ore -/

/-- The record `l_register_ore` fills in between `create` and the validity
test, for the object `o` that `create` returned. -/
def read_ore {σ : Type} (env : Env σ) (t : LuaTable) (o : Nat) : Ore :=
  { obj := o, id := 0,
    type := getenumfield t "ore_type" es_OreType ORE_SCATTER,
    name := getstringfield_default t "name" "",
    ore_param2 := (getintfield_default t "ore_param2" 0) % 256,
    clust_scarcity := env.narrow "clust_scarcity" (getintfield_default t "clust_scarcity" 1),
    clust_num_ores := env.narrow "clust_num_ores" (getintfield_default t "clust_num_ores" 1),
    clust_size := env.narrow "clust_size" (getintfield_default t "clust_size" 0),
    height_min := env.narrow "height_min" (getintfield_default t "height_min" 0),
    height_max := env.narrow "height_max" (getintfield_default t "height_max" 0) }

/-- `ModApiMapgen::l_register_ore`. -/
def l_register_ore {σ : Type} (env : Env σ) (t : LuaTable) (w : World σ) : Result σ :=
  let oretype := getenumfield t "ore_type" es_OreType ORE_SCATTER
  if !env.ore_create oretype then
    ⟨[], w⟩
  else
    let o := w.new.1
    let w := w.new.2
    let ore := read_ore env t o
    if ore.clust_scarcity ≤ 0 ∨ ore.clust_num_ores ≤ 0 then
      ⟨[], w.delete o⟩
    else
      let added := GenElementManager.add env.ore_rejects Ore.setId w.oremgr ore
      let id := added.1
      if id = U32_MAX then
        ⟨[], w.delete o⟩
      else
        let w := { w with oremgr := added.2 }
        let w := w.addNodeLists (t.getstringlistfield "wherein") ⟨o, .c_wherein⟩
        let w := w.addNode (getstringfield_default t "ore" "") "" env.CONTENT_AIR ⟨o, .c_ore⟩
        ⟨[LuaValue.number id], w⟩

/-! ## place_schematic -/

/-- A node position. -/
structure v3s16 where
  X : Int
  Y : Int
  Z : Int
  deriving DecidableEq, Repr

/-- The rotation `l_place_schematic` reads from argument 3: `rot` starts as
`ROTATE_0` and `string_to_enum` runs only if `lua_isstring` holds. -/
def read_rotation (number2str : Int → String) (arg3 : LuaValue) : Rotation :=
  if lua_isstring arg3 then
    match lua_tostring number2str arg3 with
    | some str => (string_to_enum es_Rotation (c_str str)).getD ROTATE_0
    | none => ROTATE_0
  else ROTATE_0

/-- The force-placement flag `l_place_schematic` reads from argument 5. -/
def read_force_placement (arg5 : LuaValue) : Bool :=
  if lua_isboolean arg5 then lua_toboolean arg5 else true

/-- `ModApiMapgen::l_place_schematic`: the number of values returned and the
map; `none` when the replacement table has a turn that `read_replacement`
does not cover.  `args i` is
the value at stack index `i`; `μ` is the map, `read_v3s16` and
`placeStructure` (of `Schematic`) are defined outside this file. -/
def l_place_schematic {σ μ : Type} (env : Env σ) (read_v3s16 : LuaValue → v3s16)
    (placeStructure : μ → v3s16 → Nat → Rotation → Bool → σ → μ)
    (args : Nat → LuaValue) (map : μ) : Option (Nat × μ) :=
  -- Read position
  let p := read_v3s16 (args 1)
  -- Read rotation
  let rot := read_rotation env.number2str (args 3)
  -- Read force placement
  let force_placement := read_force_placement (args 5)
  -- Read node replacements
  match (if lua_istable (args 4) then
          read_schematic_replacements env.number2str (fun _ => none) (args 4)
        else some (fun _ => none)) with
  | none => none
  | some replace_names =>
    -- Read schematic
    match env.get_schematic (args 2) replace_names with
    | none => some (0, map)
    | some schem => some (1, placeStructure map p 0 rot force_placement schem)

/-! ## get_mapgen_object -/

/-- The part of `Mapgen` that `l_get_mapgen_object` reads and writes.
`csize` is the chunk size in nodes; `heightmap` and `biomemap` are pointers
(null, or an array read by index); `gen_notifications[i]` is a pointer to the
vector of positions recorded for notification kind `i` (null, or the vector). -/
structure Mapgen where
  csize_X : Nat
  csize_Z : Nat
  heightmap : Option (Nat → Int)
  biomemap : Option (Nat → Int)
  gen_notifications : Nat → Option (List v3s16)

/-- The part of `EmergeManager` that `l_get_mapgen_object` reads:
the enabled notification flags and the current mapgen (null or a mapgen). -/
structure EmergeManager where
  gennotify : Nat
  currentMapgen : Option Mapgen

/-- `push_v3s16` of common/c_converter: the table with fields x, y, z. -/
def push_v3s16 (p : v3s16) : LuaValue :=
  .table [(.string "x", .number p.X), (.string "y", .number p.Y), (.string "z", .number p.Z)]

/-- The table built by `lua_newtable` followed by `lua_rawseti(L, -2, i + 1)`
for the successive values: entry `i + 1` is value number `i`. -/
def luaArray (vals : List LuaValue) : LuaValue :=
  .table (vals.enum.map (fun p => (LuaValue.number ((p.1 : Int) + 1), p.2)))

/-- Is the value the string `s`?  (Key comparison of `lua_setfield`.) -/
def LuaValue.isString (s : String) : LuaValue → Bool
  | .string x => x == s
  | _ => false

/-- `lua_setfield` on the pairs of a table: the value of an existing key is
replaced, a new key is added. -/
def lua_setfield (kv : List (LuaValue × LuaValue)) (name : String) (v : LuaValue) :
    List (LuaValue × LuaValue) :=
  if kv.any (fun p => p.1.isString name) then
    kv.map (fun p => if p.1.isString name then (p.1, v) else p)
  else kv ++ [(.string name, v)]

/-- The `for (int i = 0; flagdesc_gennotify[i].name; i++)` loop of the
`MGOBJ_GENNOTIFY` case, from index `i` on, over the rows of the flag table still
to visit.  `tbl` holds the pairs of the result table built so far.  The first
component is `none` for the `return 0` inside the loop and the result table
when the loop runs to its end. -/
def gennotify_loop (gennotify : Nat) :
    List (String × Nat) → Nat → List (LuaValue × LuaValue) → (Nat → Option (List v3s16)) →
      Option (List (LuaValue × LuaValue)) × (Nat → Option (List v3s16))
  | [], _, tbl, gen_notifications => (some tbl, gen_notifications)
  | (name, flag) :: rest, i, tbl, gen_notifications =>
    if gennotify &&& flag = 0 then
      gennotify_loop gennotify rest (i + 1) tbl gen_notifications
    else
      match gen_notifications i with
      | none => (none, gen_notifications)
      | some posvec =>
        gennotify_loop gennotify rest (i + 1)
          (lua_setfield tbl name (luaArray (posvec.map push_v3s16)))
          (Function.update gen_notifications i (some []))

/-- `ModApiMapgen::l_get_mapgen_object` for the objects "heightmap",
"biomemap" and "gennotify": the values returned to the script and the emerge
manager afterwards.  `flagdesc_gennotify` is the table of (name, flag) rows
declared with the mapgen.  The outer `none` marks the objects this embedding
does not cover ("voxelmanip", a userdata, and the two float maps). -/
def l_get_mapgen_object (number2str : Int → String) (flagdesc_gennotify : List (String × Nat))
    (arg1 : LuaValue) (emerge : EmergeManager) : Option (List LuaValue × EmergeManager) :=
  match string_to_enum es_MapgenObject (c_str ((lua_tostring number2str arg1).getD "")) with
  | none => some ([], emerge)
  | some mgobj =>
    match emerge.currentMapgen with
    | none => some ([], emerge)
    | some mg =>
      let maplen := mg.csize_X * mg.csize_Z
      match mgobj with
      | MGOBJ_VMANIP => none
      | MGOBJ_HEIGHTMAP =>
        match mg.heightmap with
        | none => some ([], emerge)
        | some heightmap =>
          some ([luaArray ((List.range maplen).map (fun i => LuaValue.number (heightmap i)))], emerge)
      | MGOBJ_BIOMEMAP =>
        match mg.biomemap with
        | none => some ([], emerge)
        | some biomemap =>
          some ([luaArray ((List.range maplen).map (fun i => LuaValue.number (biomemap i)))], emerge)
      | MGOBJ_HEATMAP => none
      | MGOBJ_HUMIDMAP => none
      | MGOBJ_GENNOTIFY =>
        match gennotify_loop emerge.gennotify flagdesc_gennotify 0 [] mg.gen_notifications with
        | (none, gen_notifications) =>
          some ([], { emerge with
            currentMapgen := some { mg with gen_notifications := gen_notifications } })
        | (some tbl, gen_notifications) =>
          some ([LuaValue.table tbl], { emerge with
            currentMapgen := some { mg with gen_notifications := gen_notifications } })

/-! ## Example collaborators and inputs -/

/-- An environment for the examples: content ids 126 and 127, fields wide
enough to hold what is assigned, simple and schematic decorations and every ore
type creatable, `add` refusing records with an empty name, no schematic
loadable, numbers formatted in plain decimal (as Lua does for the integers of
fewer than 15 digits). -/
def demoEnv : Env Unit :=
  { CONTENT_AIR := 126, CONTENT_IGNORE := 127,
    narrow := fun _ v => v,
    deco_create := fun k => k == some DECO_SIMPLE || k == some DECO_SCHEMATIC,
    ore_create := fun _ => true,
    biome_rejects := fun _ b => b.name == "",
    deco_rejects := fun _ d => d.name == "",
    ore_rejects := fun _ o => o.name == "",
    get_schematic := fun _ _ => none,
    number2str := fun n => toString n }

/-- A description table given by its string, integer and string-list fields. -/
def mkTable (strs : List (String × String)) (ints : List (String × Int))
    (lists : List (String × List String)) : LuaTable :=
  { getstringfield := fun k => strs.lookup k,
    getintfield := fun k => ints.lookup k,
    getstringlistfield := fun k => (lists.lookup k).getD [],
    getfield := fun _ => LuaValue.nil }

/-! ## Definitions used in the statements -/

/-- The five single-slot entries of a biome, in the words of the claim: the
given node name with its (fallback name, default id), for the fields `c_top`,
`c_filler`, `c_water`, `c_dust`, `c_dust_water` of the biome object `o`. -/
def biomeEntries {σ : Type} (env : Env σ) (t : LuaTable) (o : Nat) : List PendingEntry :=
  [ .node (getstringfield_default t "node_top" "") "mapgen_dirt_with_grass" env.CONTENT_AIR ⟨o, .c_top⟩,
    .node (getstringfield_default t "node_filler" "") "mapgen_dirt" env.CONTENT_AIR ⟨o, .c_filler⟩,
    .node (getstringfield_default t "node_water" "") "mapgen_water_source" env.CONTENT_AIR ⟨o, .c_water⟩,
    .node (getstringfield_default t "node_dust" "") "air" env.CONTENT_IGNORE ⟨o, .c_dust⟩,
    .node (getstringfield_default t "node_dust_water" "") "mapgen_water_source" env.CONTENT_IGNORE
      ⟨o, .c_dust_water⟩ ]

/-- A biome description with `height_min = 5`, `height_max = 50` and
`node_top = "grass"`. -/
def grassBiome : LuaTable :=
  mkTable [("name", "grassland"), ("node_top", "grass")] [("height_min", 5), ("height_max", 50)] []

/-- A content table that knows "mapgen_dirt_with_grass" (id 5) and nothing else. -/
def fallbackOnlyTable : String → Option Nat :=
  fun n => if n = "mapgen_dirt_with_grass" then some 5 else none

/-- A description without any field. -/
def emptyTable : LuaTable := mkTable [] [] []

/-- An ore description with a name, an ore node and two host nodes; it omits
`clust_size`. -/
def coalOre : LuaTable :=
  mkTable [("name", "coal"), ("ore", "default:stone_with_coal")] []
    [("wherein", ["default:stone", "default:desert_stone"])]

/-- An ore description with `clust_scarcity = 0`. -/
def scarceOre : LuaTable :=
  mkTable [("name", "coal"), ("ore", "default:stone_with_coal")] [("clust_scarcity", 0)]
    [("wherein", ["default:stone"])]

/-- The validity condition of a simple decoration in the words of the claim:
`height > 0`, the "decoration" list is non-empty, and `num_spawn_by == -1` or
the "spawn_by" list is non-empty (`height` and `num_spawn_by` as stored in
`deco_height` and `nspawnby`). -/
def simpleDecoValid {σ : Type} (env : Env σ) (t : LuaTable) : Prop :=
  0 < env.narrow "deco_height" (getintfield_default t "height" 1)
  ∧ t.getstringlistfield "decoration" ≠ []
  ∧ (env.narrow "nspawnby" (getintfield_default t "num_spawn_by" (-1)) = -1
      ∨ t.getstringlistfield "spawn_by" ≠ [])

/-- A simple decoration with `height = 0`, to be placed on one node. -/
def flatDeco : LuaTable :=
  mkTable [("name", "flat"), ("deco_type", "simple")] [("height", 0)]
    [("place_on", ["default:dirt"]), ("decoration", ["default:grass"])]

instance simpleDecoValid_decidable {σ : Type} (env : Env σ) (t : LuaTable) :
    Decidable (simpleDecoValid env t) := by
  unfold simpleDecoValid
  exact inferInstance

/-- The environment of the examples with record fields 16 bits wide, signed:
an assigned integer wraps into -32768 .. 32767. -/
def s16Env : Env Unit :=
  { demoEnv with narrow := fun _ v => (v + 32768) % 65536 - 32768 }

/-- A simple decoration with `height = 65536`. -/
def tallDeco : LuaTable :=
  mkTable [("name", "tall"), ("deco_type", "simple")] [("height", 65536)]
    [("place_on", ["default:sand"]), ("decoration", ["default:cactus"])]

/-- An empty decoration record for object 0. -/
def blankDeco : Decoration Unit :=
  { obj := 0, id := 0, type := none, name := "", sidelen := 0, biomes := ∅, deco_height := 0,
    deco_height_max := 0, nspawnby := 0, rotation := ROTATE_0, schematic := none }

/-- The environment of the examples with every decoration type creatable. -/
def lsystemEnv : Env Unit :=
  { demoEnv with deco_create := fun _ => true }

/-- An L-system decoration. -/
def lsystemDeco : LuaTable :=
  mkTable [("name", "tree"), ("deco_type", "lsystem")] []
    [("place_on", ["default:dirt"]), ("decoration", ["default:tree"])]

/-- A biome named "desert". -/
def desertBiome : LuaTable :=
  mkTable [("name", "desert")] [] []

/-- A simple decoration whose "biomes" list names "desert". -/
def cactusDeco : LuaTable :=
  mkTable [("name", "cactus"), ("deco_type", "simple")] []
    [("place_on", ["default:sand"]), ("decoration", ["default:cactus"]), ("biomes", ["desert"])]

/-- The set of biome ids recorded in the decoration with id `id`
(`deco->biomes`), if there is such a decoration. -/
def recordedBiomes {σ : Type} (w : World σ) (id : Nat) : Option (Finset Int) :=
  (w.decomgr.get? id).map (fun d => d.biomes)

/-- The world in which the biome "desert" is registered. -/
def desertWorld : World Unit :=
  (l_register_biome demoEnv desertBiome (World.empty Unit)).world

/-- The outcome of registering `cactusDeco` in `desertWorld`. -/
def cactusResult : Result Unit :=
  (l_register_decoration demoEnv cactusDeco desertWorld).getD ⟨[], World.empty Unit⟩

/-- The pairs of the old form `{{from_1, to_1}, ...}`: under the key `i` the
table `{from_i, to_i}`. -/
def oldFormPairs (ps : List (String × String)) : List (LuaValue × LuaValue) :=
  ps.enum.map (fun p =>
    (LuaValue.number ((p.1 : Int) + 1),
     LuaValue.table [(.number 1, .string p.2.1), (.number 2, .string p.2.2)]))

/-- The pairs of the new form `{from_1 = to_1, ...}`. -/
def newFormPairs (ps : List (String × String)) : List (LuaValue × LuaValue) :=
  ps.map (fun p => (LuaValue.string p.1, LuaValue.string p.2))

/-- The table of the claim: it sends each `from_i` to `to_i` and leaves the
other keys of `m0` as they are. -/
def replacementMap (ps : List (String × String)) (m0 : String → Option String) :
    String → Option String :=
  fun k =>
    match ps.find? (fun p => p.1 == k) with
    | some p => some p.2
    | none => m0 k

/-- The assignments `replace_names[from] = to` made for a list of pairs. -/
def assignAll (qs : List (String × String)) (m : String → Option String) :
    String → Option String :=
  qs.foldl (fun m p => Function.update m p.1 (some p.2)) m

/-- A pair of replacement strings as the code stores it: each string cut at
its first NUL. -/
def cutPair (p : String × String) : String × String :=
  (c_str p.1, c_str p.2)

/-- The three characters `x`, NUL, `y`. -/
def nulText : String :=
  String.mk [Char.ofNat 120, Char.ofNat 0, Char.ofNat 121]

/-- Two replacements. -/
def demoReplacements : List (String × String) :=
  [("default:stone", "air"), ("default:dirt", "default:sand")]

/-- The rotation named by a string, in the words of the claim: "0", "90",
"180", "270", "random" name their rotations, any other string leaves
`ROTATE_0`. -/
def rotationNamed (s : String) : Rotation :=
  if s = "0" then ROTATE_0
  else if s = "90" then ROTATE_90
  else if s = "180" then ROTATE_180
  else if s = "270" then ROTATE_270
  else if s = "random" then ROTATE_RAND
  else ROTATE_0

/-- The environment of the examples in which every schematic loads. -/
def loadingEnv : Env Unit :=
  { demoEnv with get_schematic := fun _ _ => some () }

/-- A map that only records the calls of `placeStructure`: position, flags,
rotation and force-placement flag of each call. -/
def recordPlacement (calls : List (v3s16 × Nat × Rotation × Bool)) (p : v3s16) (flags : Nat)
    (rot : Rotation) (force_placement : Bool) (_schem : Unit) :
    List (v3s16 × Nat × Rotation × Bool) :=
  calls ++ [(p, flags, rot, force_placement)]

/-- The arguments `(p, schematic, "90", nil, false)`. -/
def demoArgs : Nat → LuaValue :=
  fun i => if i = 3 then .string "90" else if i = 5 then .boolean false else .nil

/-- The fields of the "gennotify" result in the words of the claim: for every
enabled row of the flag table, from index `i` on, the name of the kind with
the positions recorded for it. -/
def gennotifyFields (gennotify : Nat) :
    List (String × Nat) → Nat → (Nat → Option (List v3s16)) → List (String × List v3s16)
  | [], _, _ => []
  | (name, flag) :: rest, i, gen_notifications =>
    if gennotify &&& flag = 0 then
      gennotifyFields gennotify rest (i + 1) gen_notifications
    else
      (name, (gen_notifications i).getD []) :: gennotifyFields gennotify rest (i + 1) gen_notifications

/-- The arguments `(p, schematic, 90)`: the rotation given as a number. -/
def numberArgs : Nat → LuaValue :=
  fun i => if i = 3 then .number 90 else .nil

/-- The four characters `9`, `0`, NUL, `x`. -/
def nulRotation : String :=
  String.mk [Char.ofNat 57, Char.ofNat 48, Char.ofNat 0, Char.ofNat 120]

/-- The arguments `(p, schematic, nulRotation)`. -/
def nulArgs : Nat → LuaValue :=
  fun i => if i = 3 then .string nulRotation else .nil

/-- A notification flag table: one bit per kind, in index order. -/
def demoFlagdesc : List (String × Nat) :=
  [("dungeon", 1), ("temple", 2), ("cave_begin", 4), ("cave_end", 8),
   ("large_cave_begin", 16), ("large_cave_end", 32)]

/-- A mapgen that has a list for notification kind 0 ("dungeon"), holding one
position, and no list for any other kind. -/
def dungeonOnlyMapgen : Mapgen :=
  { csize_X := 2, csize_Z := 2,
    heightmap := some (fun i => (i : Int) + 10),
    biomemap := none,
    gen_notifications := fun i => if i = 0 then some [⟨1, 2, 3⟩] else none }

/-- A mapgen that has a list for every notification kind; the list of kind 0
("dungeon") holds one position. -/
def recordingMapgen : Mapgen :=
  { csize_X := 2, csize_Z := 2,
    heightmap := some (fun i => (i : Int) + 10),
    biomemap := none,
    gen_notifications := fun i => some (if i = 0 then [⟨1, 2, 3⟩] else []) }

/-- An emerge manager with the kinds 0 and 1 enabled and `recordingMapgen` as
current mapgen. -/
def recordingEmerge : EmergeManager :=
  { gennotify := 3, currentMapgen := some recordingMapgen }

/-- An emerge manager with the kinds 0 and 1 ("dungeon" and "temple") enabled
and `dungeonOnlyMapgen` as current mapgen. -/
def dungeonTempleEmerge : EmergeManager :=
  { gennotify := 3, currentMapgen := some dungeonOnlyMapgen }

/-! ## Lemmas on the resolver -/

theorem pending_addNodeLists {σ : Type} (names : List String) (output : Slot) (w : World σ) :
    (w.addNodeLists names output).pending
      = w.pending ++ names.map (fun n => PendingEntry.nodeList n output) := by
  unfold World.addNodeLists
  induction names generalizing w with
  | nil => simp
  | cons n ns ih =>
    simp only [List.foldl_cons]
    rw [ih]
    simp [World.addNodeList]

theorem frame_addNodeLists {σ : Type} (names : List String) (output : Slot) (w : World σ) :
    (w.addNodeLists names output).live = w.live
      ∧ (w.addNodeLists names output).next_obj = w.next_obj
      ∧ (w.addNodeLists names output).biomemgr = w.biomemgr
      ∧ (w.addNodeLists names output).decomgr = w.decomgr
      ∧ (w.addNodeLists names output).oremgr = w.oremgr := by
  unfold World.addNodeLists
  induction names generalizing w with
  | nil => simp
  | cons n ns ih =>
    simp only [List.foldl_cons]
    rw [(ih _).1, (ih _).2.1, (ih _).2.2.1, (ih _).2.2.2.1, (ih _).2.2.2.2]
    simp [World.addNodeList]

theorem decomgr_addNodeLists {σ : Type} (names : List String) (output : Slot) (w : World σ) :
    (w.addNodeLists names output).decomgr = w.decomgr :=
  (frame_addNodeLists names output w).2.2.2.1

theorem biomemgr_addNodeLists {σ : Type} (names : List String) (output : Slot) (w : World σ) :
    (w.addNodeLists names output).biomemgr = w.biomemgr :=
  (frame_addNodeLists names output w).2.2.1

theorem live_addNodeLists {σ : Type} (names : List String) (output : Slot) (w : World σ) :
    (w.addNodeLists names output).live = w.live :=
  (frame_addNodeLists names output w).1

theorem not_mem_live_delete {σ : Type} (w : World σ) (o : Nat) : o ∉ (w.delete o).live := by
  simp [World.delete]

/-! ## C1 -/

theorem flush_content_append {σ : Type} (lookup : String → Option Nat)
    (list_absent : String → List Nat) (w : World σ) (es : List PendingEntry) :
    (World.flush lookup list_absent { w with pending := w.pending ++ es }).content
      = (es.foldl (flushEntry lookup list_absent)
          (w.pending.foldl (flushEntry lookup list_absent) w)).content := by
  unfold World.flush
  simp only [List.foldl_append]
  have key : ∀ (l : List PendingEntry) (a b : World σ), a.content = b.content →
      a.content_vec = b.content_vec →
      (l.foldl (flushEntry lookup list_absent) a).content
        = (l.foldl (flushEntry lookup list_absent) b).content
      ∧ (l.foldl (flushEntry lookup list_absent) a).content_vec
        = (l.foldl (flushEntry lookup list_absent) b).content_vec := by
    intro l
    induction l with
    | nil => intro a b h1 h2; exact ⟨h1, h2⟩
    | cons e l ih =>
      intro a b h1 h2
      simp only [List.foldl_cons]
      apply ih
      · cases e <;> simp [flushEntry, h1]
      · cases e <;> simp [flushEntry, h2]
  have h := key w.pending { w with pending := w.pending ++ es } w rfl rfl
  exact (key es _ _ h.1 h.2).1

/-- C1: when `add` accepts the biome record, `l_register_biome` appends to the
resolver's pending entries exactly the five single-slot entries for `c_top`,
`c_filler`, `c_water`, `c_dust`, `c_dust_water` (in this order, with the fallback
names and default ids of the claim); for every content table, after `flush` each
of the five fields holds `lookup(given name)` if present, else
`lookup(fallback)` if present, else the default; and with `node_top = "grass"`
absent from the table and "mapgen_dirt_with_grass" present, `c_top` is the id of
"mapgen_dirt_with_grass". -/
theorem register_biome_pends_five_entries {σ : Type} (env : Env σ) (t : LuaTable) (w : World σ)
    (hadd : (GenElementManager.add env.biome_rejects Biome.setId w.biomemgr
      (read_biome env t w.next_obj)).1 ≠ U32_MAX) :
    (l_register_biome env t w).world.pending = w.pending ++ biomeEntries env t w.next_obj
    ∧ biomeEntries env t w.next_obj =
        [ .node (getstringfield_default t "node_top" "") "mapgen_dirt_with_grass"
            env.CONTENT_AIR ⟨w.next_obj, .c_top⟩,
          .node (getstringfield_default t "node_filler" "") "mapgen_dirt"
            env.CONTENT_AIR ⟨w.next_obj, .c_filler⟩,
          .node (getstringfield_default t "node_water" "") "mapgen_water_source"
            env.CONTENT_AIR ⟨w.next_obj, .c_water⟩,
          .node (getstringfield_default t "node_dust" "") "air"
            env.CONTENT_IGNORE ⟨w.next_obj, .c_dust⟩,
          .node (getstringfield_default t "node_dust_water" "") "mapgen_water_source"
            env.CONTENT_IGNORE ⟨w.next_obj, .c_dust_water⟩ ]
    ∧ (∀ (lookup : String → Option Nat) (list_absent : String → List Nat),
        (World.flush lookup list_absent (l_register_biome env t w).world).pending = []
        ∧ (World.flush lookup list_absent (l_register_biome env t w).world).content
            ⟨w.next_obj, .c_top⟩
          = some (resolveNode lookup (getstringfield_default t "node_top" "")
              "mapgen_dirt_with_grass" env.CONTENT_AIR)
        ∧ (World.flush lookup list_absent (l_register_biome env t w).world).content
            ⟨w.next_obj, .c_filler⟩
          = some (resolveNode lookup (getstringfield_default t "node_filler" "")
              "mapgen_dirt" env.CONTENT_AIR)
        ∧ (World.flush lookup list_absent (l_register_biome env t w).world).content
            ⟨w.next_obj, .c_water⟩
          = some (resolveNode lookup (getstringfield_default t "node_water" "")
              "mapgen_water_source" env.CONTENT_AIR)
        ∧ (World.flush lookup list_absent (l_register_biome env t w).world).content
            ⟨w.next_obj, .c_dust⟩
          = some (resolveNode lookup (getstringfield_default t "node_dust" "")
              "air" env.CONTENT_IGNORE)
        ∧ (World.flush lookup list_absent (l_register_biome env t w).world).content
            ⟨w.next_obj, .c_dust_water⟩
          = some (resolveNode lookup (getstringfield_default t "node_dust_water" "")
              "mapgen_water_source" env.CONTENT_IGNORE))
    ∧ (∀ (lookup : String → Option Nat) (list_absent : String → List Nat) (c : Nat),
        t.getstringfield "node_top" = some "grass" → lookup "grass" = none →
        lookup "mapgen_dirt_with_grass" = some c →
        (World.flush lookup list_absent (l_register_biome env t w).world).content
            ⟨w.next_obj, .c_top⟩ = some c) := by
  have hw : (l_register_biome env t w).world
      = { (w.new.2 : World σ) with
            biomemgr := (GenElementManager.add env.biome_rejects Biome.setId w.biomemgr
              (read_biome env t w.next_obj)).2,
            pending := w.pending ++ biomeEntries env t w.next_obj } := by
    have hadd2 : ¬ (GenElementManager.add env.biome_rejects Biome.setId (w.new.2).biomemgr
        (read_biome env t (w.new.1))).1 = U32_MAX := hadd
    simp only [l_register_biome, if_neg hadd2]
    simp [World.addNode, World.new, biomeEntries]
  have hflush : ∀ (lookup : String → Option Nat) (list_absent : String → List Nat),
      (World.flush lookup list_absent (l_register_biome env t w).world).content
        = ((biomeEntries env t w.next_obj).foldl (flushEntry lookup list_absent)
            (w.pending.foldl (flushEntry lookup list_absent)
              { (w.new.2 : World σ) with
                biomemgr := (GenElementManager.add env.biome_rejects Biome.setId w.biomemgr
                  (read_biome env t w.next_obj)).2,
                pending := w.pending })).content := by
    intro lookup list_absent
    rw [hw]
    exact flush_content_append lookup list_absent
      { (w.new.2 : World σ) with
        biomemgr := (GenElementManager.add env.biome_rejects Biome.setId w.biomemgr
          (read_biome env t w.next_obj)).2,
        pending := w.pending } (biomeEntries env t w.next_obj)
  have hall : ∀ (lookup : String → Option Nat) (list_absent : String → List Nat),
      (World.flush lookup list_absent (l_register_biome env t w).world).content
            ⟨w.next_obj, .c_top⟩
          = some (resolveNode lookup (getstringfield_default t "node_top" "")
              "mapgen_dirt_with_grass" env.CONTENT_AIR)
        ∧ (World.flush lookup list_absent (l_register_biome env t w).world).content
            ⟨w.next_obj, .c_filler⟩
          = some (resolveNode lookup (getstringfield_default t "node_filler" "")
              "mapgen_dirt" env.CONTENT_AIR)
        ∧ (World.flush lookup list_absent (l_register_biome env t w).world).content
            ⟨w.next_obj, .c_water⟩
          = some (resolveNode lookup (getstringfield_default t "node_water" "")
              "mapgen_water_source" env.CONTENT_AIR)
        ∧ (World.flush lookup list_absent (l_register_biome env t w).world).content
            ⟨w.next_obj, .c_dust⟩
          = some (resolveNode lookup (getstringfield_default t "node_dust" "")
              "air" env.CONTENT_IGNORE)
        ∧ (World.flush lookup list_absent (l_register_biome env t w).world).content
            ⟨w.next_obj, .c_dust_water⟩
          = some (resolveNode lookup (getstringfield_default t "node_dust_water" "")
              "mapgen_water_source" env.CONTENT_IGNORE) := by
    intro lookup list_absent
    rw [hflush]
    simp [biomeEntries, flushEntry, Function.update]
  refine ⟨by rw [hw], rfl, ?_, ?_⟩
  · intro lookup list_absent
    exact ⟨by simp [World.flush], hall lookup list_absent⟩
  · intro lookup list_absent c htop hgrass hfb
    rw [(hall lookup list_absent).1]
    simp [getstringfield_default, htop, resolveNode, hgrass, hfb]

theorem register_biome_pends_five_entries_witness :
    (GenElementManager.add demoEnv.biome_rejects Biome.setId (World.empty Unit).biomemgr
      (read_biome demoEnv grassBiome (World.empty Unit).next_obj)).1 ≠ U32_MAX
    ∧ (World.flush fallbackOnlyTable (fun _ => [])
        (l_register_biome demoEnv grassBiome (World.empty Unit)).world).content
          ⟨0, .c_top⟩ = some 5 :=
  ⟨by decide,
   (register_biome_pends_five_entries demoEnv grassBiome (World.empty Unit) (by decide)).2.2.2
      fallbackOnlyTable (fun _ => []) 5 (by decide) (by decide) (by decide)⟩

/-! ## C4 -/

/-- C4: in `l_register_biome` and `l_register_ore`, when `add` returns the
failure id the call returns no value, the record is destroyed, the registry is
as before and the resolver's pending entries are as before; when `add` returns
another id, the call returns exactly that id.  (For the ore, `add` is reached
when `create` returned a record and the cluster test passed.) -/
theorem register_biome_ore_pend_only_after_add {σ : Type} (env : Env σ) (t : LuaTable)
    (w : World σ) :
    ((GenElementManager.add env.biome_rejects Biome.setId w.biomemgr
          (read_biome env t w.next_obj)).1 = U32_MAX →
        (l_register_biome env t w).ret = []
        ∧ (l_register_biome env t w).world.pending = w.pending
        ∧ w.next_obj ∉ (l_register_biome env t w).world.live
        ∧ (l_register_biome env t w).world.biomemgr = w.biomemgr)
    ∧ ((GenElementManager.add env.biome_rejects Biome.setId w.biomemgr
          (read_biome env t w.next_obj)).1 ≠ U32_MAX →
        (l_register_biome env t w).ret = [LuaValue.number
          (GenElementManager.add env.biome_rejects Biome.setId w.biomemgr
            (read_biome env t w.next_obj)).1])
    ∧ (env.ore_create (getenumfield t "ore_type" es_OreType ORE_SCATTER) = true →
        ¬ ((read_ore env t w.next_obj).clust_scarcity ≤ 0
            ∨ (read_ore env t w.next_obj).clust_num_ores ≤ 0) →
        ((GenElementManager.add env.ore_rejects Ore.setId w.oremgr
              (read_ore env t w.next_obj)).1 = U32_MAX →
            (l_register_ore env t w).ret = []
            ∧ (l_register_ore env t w).world.pending = w.pending
            ∧ w.next_obj ∉ (l_register_ore env t w).world.live
            ∧ (l_register_ore env t w).world.oremgr = w.oremgr)
        ∧ ((GenElementManager.add env.ore_rejects Ore.setId w.oremgr
              (read_ore env t w.next_obj)).1 ≠ U32_MAX →
            (l_register_ore env t w).ret = [LuaValue.number
              (GenElementManager.add env.ore_rejects Ore.setId w.oremgr
                (read_ore env t w.next_obj)).1])) := by
  refine ⟨?_, ?_, ?_⟩
  · intro h
    have h2 : (GenElementManager.add env.biome_rejects Biome.setId (w.new.2).biomemgr
        (read_biome env t (w.new.1))).1 = U32_MAX := h
    have hr : l_register_biome env t w = ⟨[], (w.new.2).delete (w.new.1)⟩ := by
      simp only [l_register_biome, if_pos h2]
    rw [hr]
    exact ⟨rfl, rfl, not_mem_live_delete _ _, rfl⟩
  · intro h
    have h2 : ¬ (GenElementManager.add env.biome_rejects Biome.setId (w.new.2).biomemgr
        (read_biome env t (w.new.1))).1 = U32_MAX := h
    simp only [l_register_biome, if_neg h2]
    rfl
  · intro hc hv
    have hv2 : ¬ ((read_ore env t (w.new.1)).clust_scarcity ≤ 0
        ∨ (read_ore env t (w.new.1)).clust_num_ores ≤ 0) := hv
    refine ⟨?_, ?_⟩
    · intro h
      have h2 : (GenElementManager.add env.ore_rejects Ore.setId (w.new.2).oremgr
          (read_ore env t (w.new.1))).1 = U32_MAX := h
      have hr : l_register_ore env t w = ⟨[], (w.new.2).delete (w.new.1)⟩ := by
        simp only [l_register_ore, hc, Bool.not_true, Bool.false_eq_true, if_false, if_neg hv2,
          if_pos h2]
      rw [hr]
      exact ⟨rfl, rfl, not_mem_live_delete _ _, rfl⟩
    · intro h
      have h2 : ¬ (GenElementManager.add env.ore_rejects Ore.setId (w.new.2).oremgr
          (read_ore env t (w.new.1))).1 = U32_MAX := h
      simp only [l_register_ore, hc, Bool.not_true, Bool.false_eq_true, if_false, if_neg hv2,
        if_neg h2]
      rfl

theorem register_biome_ore_pend_only_after_add_witness :
    ((GenElementManager.add demoEnv.biome_rejects Biome.setId (World.empty Unit).biomemgr
        (read_biome demoEnv emptyTable (World.empty Unit).next_obj)).1 = U32_MAX
      ∧ (l_register_biome demoEnv emptyTable (World.empty Unit)).world.pending = [])
    ∧ ((GenElementManager.add demoEnv.biome_rejects Biome.setId (World.empty Unit).biomemgr
        (read_biome demoEnv grassBiome (World.empty Unit).next_obj)).1 ≠ U32_MAX
      ∧ (l_register_biome demoEnv grassBiome (World.empty Unit)).ret = [LuaValue.number 0])
    ∧ ((GenElementManager.add demoEnv.ore_rejects Ore.setId (World.empty Unit).oremgr
        (read_ore demoEnv emptyTable (World.empty Unit).next_obj)).1 = U32_MAX
      ∧ (l_register_ore demoEnv emptyTable (World.empty Unit)).world.pending = [])
    ∧ ((GenElementManager.add demoEnv.ore_rejects Ore.setId (World.empty Unit).oremgr
        (read_ore demoEnv coalOre (World.empty Unit).next_obj)).1 ≠ U32_MAX
      ∧ (l_register_ore demoEnv coalOre (World.empty Unit)).ret = [LuaValue.number 0]) :=
  ⟨⟨by decide,
    ((register_biome_ore_pend_only_after_add demoEnv emptyTable (World.empty Unit)).1
      (by decide)).2.1⟩,
   ⟨by decide,
    (register_biome_ore_pend_only_after_add demoEnv grassBiome (World.empty Unit)).2.1
      (by decide)⟩,
   ⟨by decide,
    (((register_biome_ore_pend_only_after_add demoEnv emptyTable (World.empty Unit)).2.2
      (by decide) (by decide)).1 (by decide)).2.1⟩,
   ⟨by decide,
    ((register_biome_ore_pend_only_after_add demoEnv coalOre (World.empty Unit)).2.2
      (by decide) (by decide)).2 (by decide)⟩⟩

/-! ## C5 -/

/-- C5, as stated, fails: the ore description `coalOre` omits `clust_size`, so
the stored cluster size is 0, and yet `l_register_ore` returns an id, the ore
registry holds the new record and two resolver entries are pending. -/
theorem register_ore_accepts_zero_clust_size :
    (read_ore demoEnv coalOre 0).clust_size ≤ 0
    ∧ (l_register_ore demoEnv coalOre (World.empty Unit)).ret.length = 1
    ∧ (l_register_ore demoEnv coalOre (World.empty Unit)).world.oremgr.length = 1
    ∧ (l_register_ore demoEnv coalOre (World.empty Unit)).world.pending
        = [ .nodeList "default:stone" ⟨0, .c_wherein⟩,
            .nodeList "default:desert_stone" ⟨0, .c_wherein⟩,
            .node "default:stone_with_coal" "" 126 ⟨0, .c_ore⟩ ] := by
  decide

/-- C5, amended: when the stored `clust_scarcity` or `clust_num_ores` is not
positive, `l_register_ore` returns no value, leaves the ore registry as it was
(`add` is not called) and leaves the resolver's pending entries as they were. -/
theorem register_ore_rejects_nonpositive_cluster {σ : Type} (env : Env σ) (t : LuaTable)
    (w : World σ)
    (h : (read_ore env t w.next_obj).clust_scarcity ≤ 0
      ∨ (read_ore env t w.next_obj).clust_num_ores ≤ 0) :
    (l_register_ore env t w).ret = []
    ∧ (l_register_ore env t w).world.oremgr = w.oremgr
    ∧ (l_register_ore env t w).world.pending = w.pending := by
  have h2 : (read_ore env t (w.new.1)).clust_scarcity ≤ 0
      ∨ (read_ore env t (w.new.1)).clust_num_ores ≤ 0 := h
  by_cases hc : env.ore_create (getenumfield t "ore_type" es_OreType ORE_SCATTER) = true
  · have hr : l_register_ore env t w = ⟨[], (w.new.2).delete (w.new.1)⟩ := by
      simp only [l_register_ore, hc, Bool.not_true, Bool.false_eq_true, if_false, if_pos h2]
    rw [hr]
    exact ⟨rfl, rfl, rfl⟩
  · have hr : l_register_ore env t w = ⟨[], w⟩ := by
      simp only [l_register_ore, hc, Bool.not_false, if_true]
    rw [hr]
    exact ⟨rfl, rfl, rfl⟩

theorem register_ore_rejects_nonpositive_cluster_witness :
    ((read_ore demoEnv scarceOre (World.empty Unit).next_obj).clust_scarcity ≤ 0
      ∨ (read_ore demoEnv scarceOre (World.empty Unit).next_obj).clust_num_ores ≤ 0)
    ∧ ((l_register_ore demoEnv scarceOre (World.empty Unit)).ret = []
      ∧ (l_register_ore demoEnv scarceOre (World.empty Unit)).world.oremgr
          = (World.empty Unit).oremgr
      ∧ (l_register_ore demoEnv scarceOre (World.empty Unit)).world.pending
          = (World.empty Unit).pending) :=
  ⟨by decide, register_ore_rejects_nonpositive_cluster demoEnv scarceOre (World.empty Unit)
    (by decide)⟩

/-! ## C6 -/

theorem regDecoSimple_fail {σ : Type} (env : Env σ) (t : LuaTable) (d : Decoration σ)
    (v : World σ) (h : (regDecoSimple env t d v).1 = false) :
    (regDecoSimple env t d v).2.2 = v := by
  revert h
  simp only [regDecoSimple]
  split_ifs
  · intro _; rfl
  · intro _; rfl
  · intro _; rfl
  · intro h; exact absurd h (by simp)

theorem regDecoSimple_pending {σ : Type} (env : Env σ) (t : LuaTable) (d : Decoration σ)
    (v : World σ) (h : (regDecoSimple env t d v).1 = true) :
    (regDecoSimple env t d v).2.2.pending
      = v.pending ++ ((t.getstringlistfield "decoration").map
            (fun n => PendingEntry.nodeList n ⟨d.obj, .c_decos⟩)
          ++ (t.getstringlistfield "spawn_by").map
            (fun n => PendingEntry.nodeList n ⟨d.obj, .c_spawnby⟩)) := by
  revert h
  simp only [regDecoSimple]
  split_ifs
  · intro h; exact absurd h (by simp)
  · intro h; exact absurd h (by simp)
  · intro h; exact absurd h (by simp)
  · intro _; simp [pending_addNodeLists]

/-- C6 fails on the code when the field `deco_height` is narrower than the
integer of the description: `tallDeco` has `height = 65536 > 0`, a non-empty
"decoration" list and no `num_spawn_by` (so -1), and with 16-bit fields
`regDecoSimple` refuses it, the stored height being 0. -/
theorem regDecoSimple_refuses_wrapped_height :
    0 < getintfield_default tallDeco "height" 1
    ∧ tallDeco.getstringlistfield "decoration" ≠ []
    ∧ getintfield_default tallDeco "num_spawn_by" (-1) = -1
    ∧ (regDecoSimple s16Env tallDeco blankDeco (World.empty Unit)).1 = false := by
  decide

/-- C6, amended: with `height` and `num_spawn_by` taken as stored in the record
fields `deco_height` and `nspawnby` (`simpleDecoValid`),
`regDecoSimple` succeeds exactly when the validity condition holds; it
appends to the pending entries nothing when it fails and, when it succeeds, one
list-mode entry per "decoration" name into `c_decos` followed by one per
"spawn_by" name into `c_spawnby`, each in the given order; and for a
description of type "simple" that fails the condition, `l_register_decoration`
returns no value and leaves the decoration registry as it was (no `add`). -/
theorem regDecoSimple_validation {σ : Type} (env : Env σ) (t : LuaTable) (deco : Decoration σ)
    (w : World σ) :
    ((regDecoSimple env t deco w).1 = true ↔ simpleDecoValid env t)
    ∧ (regDecoSimple env t deco w).2.2.pending
        = w.pending ++
          (if (regDecoSimple env t deco w).1 = true then
            (t.getstringlistfield "decoration").map
                (fun n => PendingEntry.nodeList n ⟨deco.obj, .c_decos⟩)
              ++ (t.getstringlistfield "spawn_by").map
                (fun n => PendingEntry.nodeList n ⟨deco.obj, .c_spawnby⟩)
          else [])
    ∧ (getenumfield t "deco_type" es_DecorationType none = some DECO_SIMPLE →
        ¬ simpleDecoValid env t →
        ∃ r, l_register_decoration env t w = some r ∧ r.ret = []
          ∧ r.world.decomgr = w.decomgr) := by
  have hiff : ∀ (d : Decoration σ) (v : World σ),
      ((regDecoSimple env t d v).1 = true ↔ simpleDecoValid env t) := by
    intro d v
    simp only [regDecoSimple, simpleDecoValid]
    split_ifs with h1 h2 h3
    · exact ⟨fun h => absurd h (by simp), fun h => absurd h.1 (by omega)⟩
    · exact ⟨fun h => absurd h (by simp), fun h => absurd (List.length_eq_zero.mp h2) h.2.1⟩
    · refine ⟨fun h => absurd h (by simp), fun h => ?_⟩
      rcases h.2.2 with h4 | h4
      · exact absurd h4 h3.1
      · exact absurd (List.length_eq_zero.mp h3.2) h4
    · refine ⟨fun _ => ⟨by omega, fun h => h2 (by simp [h]), ?_⟩, fun _ => rfl⟩
      by_cases h5 : env.narrow "nspawnby" (getintfield_default t "num_spawn_by" (-1)) = -1
      · exact Or.inl h5
      · exact Or.inr (fun h6 => h3 ⟨h5, by simp [h6]⟩)
  have hpend : ∀ (d : Decoration σ) (v : World σ),
      (regDecoSimple env t d v).2.2.pending
        = v.pending ++
          (if (regDecoSimple env t d v).1 = true then
            (t.getstringlistfield "decoration").map
                (fun n => PendingEntry.nodeList n ⟨d.obj, .c_decos⟩)
              ++ (t.getstringlistfield "spawn_by").map
                (fun n => PendingEntry.nodeList n ⟨d.obj, .c_spawnby⟩)
          else []) := by
    intro d v
    cases hb : (regDecoSimple env t d v).1
    · rw [regDecoSimple_fail env t d v hb]
      simp
    · rw [regDecoSimple_pending env t d v hb]
      simp
  refine ⟨hiff deco w, hpend deco w, ?_⟩
  intro hty hbad
  unfold l_register_decoration
  simp only [hty]
  by_cases hc : env.deco_create (some DECO_SIMPLE) = true
  · simp only [hc, Bool.not_true, Bool.false_eq_true, if_false]
    by_cases hs : env.narrow "sidelen" (getintfield_default t "sidelen" 8) ≤ 0
    · simp only [hs, if_true]
      exact ⟨_, rfl, rfl, rfl⟩
    · simp only [hs, if_false]
      have hf : ∀ (d : Decoration σ) (v : World σ), (regDecoSimple env t d v).1 = false := by
        intro d v
        cases hb : (regDecoSimple env t d v).1
        · rfl
        · exact absurd ((hiff d v).mp hb) hbad
      have hfw : ∀ (d : Decoration σ) (v : World σ),
          (regDecoSimple env t d v).2.2.decomgr = v.decomgr := by
        intro d v
        simp only [regDecoSimple]
        split_ifs <;> simp [decomgr_addNodeLists]
      simp only [hf, Bool.not_false, if_true]
      refine ⟨_, rfl, rfl, ?_⟩
      simp only [World.delete, hfw, decomgr_addNodeLists]
      rfl
  · simp only [hc, Bool.not_false, if_true]
    exact ⟨_, rfl, rfl, rfl⟩

theorem regDecoSimple_validation_witness :
    (getenumfield flatDeco "deco_type" es_DecorationType none = some DECO_SIMPLE
      ∧ ¬ simpleDecoValid demoEnv flatDeco)
    ∧ ∃ r, l_register_decoration demoEnv flatDeco (World.empty Unit) = some r ∧ r.ret = []
        ∧ r.world.decomgr = (World.empty Unit).decomgr :=
  ⟨⟨by decide, by decide⟩,
   (regDecoSimple_validation demoEnv flatDeco blankDeco (World.empty Unit)).2.2
      (by decide) (by decide)⟩

/-! ## C9 -/

/-- C9: for a description with `deco_type = "lsystem"` for which `create`
returns a record, `l_register_decoration` returns, returns no value, leaves the
decoration registry as it was (`add` is not called) and destroys the record. -/
theorem register_decoration_lsystem_fails {σ : Type} (env : Env σ) (t : LuaTable) (w : World σ)
    (hty : t.getstringfield "deco_type" = some "lsystem")
    (hcreate : env.deco_create (some DECO_LSYSTEM) = true) :
    ∃ r, l_register_decoration env t w = some r ∧ r.ret = []
      ∧ r.world.decomgr = w.decomgr ∧ w.next_obj ∉ r.world.live := by
  have hk : getenumfield t "deco_type" es_DecorationType none = some DECO_LSYSTEM := by
    simp only [getenumfield, getstringfield_default, hty]
    decide
  unfold l_register_decoration
  simp only [hk, hcreate, Bool.not_true, Bool.false_eq_true, if_false]
  by_cases hs : env.narrow "sidelen" (getintfield_default t "sidelen" 8) ≤ 0
  · simp only [hs, if_true]
    exact ⟨_, rfl, rfl, rfl, not_mem_live_delete _ _⟩
  · simp only [hs, if_false, Bool.not_false, if_true]
    refine ⟨_, rfl, rfl, ?_, not_mem_live_delete _ _⟩
    simp only [World.delete, decomgr_addNodeLists]
    rfl

theorem register_decoration_lsystem_fails_witness :
    (lsystemDeco.getstringfield "deco_type" = some "lsystem"
      ∧ lsystemEnv.deco_create (some DECO_LSYSTEM) = true)
    ∧ ∃ r, l_register_decoration lsystemEnv lsystemDeco (World.empty Unit) = some r ∧ r.ret = []
      ∧ r.world.decomgr = (World.empty Unit).decomgr
      ∧ (World.empty Unit).next_obj ∉ r.world.live :=
  ⟨⟨by decide, by decide⟩,
   register_decoration_lsystem_fails lsystemEnv lsystemDeco (World.empty Unit)
      (by decide) (by decide)⟩

/-! ## C3 -/

/-- C3 fails on the code: registering `flatDeco` (a simple decoration with
`height = 0` and one "place_on" node) in the empty world reports failure (no
value returned, registry empty, record 0 destroyed), and the resolver is left
with a pending list-mode entry for the field `c_place_on` of the destroyed
record. -/
theorem register_decoration_failure_leaves_pending_entry :
    (l_register_decoration demoEnv flatDeco (World.empty Unit)).map
        (fun r => (r.ret.length, r.world.decomgr.length, r.world.live, r.world.pending))
      = some (0, 0, [], [PendingEntry.nodeList "default:dirt" ⟨0, .c_place_on⟩])
    ∧ (World.empty Unit).pending = [] := by
  decide

/-! ## C2 -/

/-- C2 fails on the code: with the biome "desert" registered before the
decoration `cactusDeco`, the decoration records the biome id 0; with the same
biome registered after the decoration, the decoration records no biome. -/
theorem register_decoration_biomes_depend_on_order :
    (l_register_decoration demoEnv cactusDeco
        (l_register_biome demoEnv desertBiome (World.empty Unit)).world).map
        (fun r => recordedBiomes r.world 0) = some (some {0})
    ∧ (l_register_decoration demoEnv cactusDeco (World.empty Unit)).map
        (fun r => recordedBiomes (l_register_biome demoEnv desertBiome r.world).world 0)
        = some (some ∅) := by
  decide

theorem mem_insertBiomes (stored : Int → Int) (biomemgr : List Biome)
    (biome_list : List String) (s : Finset Int) (i : Int) :
    i ∈ insertBiomes stored biomemgr biome_list s ↔
      i ∈ s ∨ ∃ name ∈ biome_list, ∃ b,
        BiomeManager.getByName biomemgr name = some b ∧ stored b.id = i := by
  unfold insertBiomes
  induction biome_list generalizing s with
  | nil => simp
  | cons n ns ih =>
    simp only [List.foldl_cons]
    rw [ih]
    cases hb : BiomeManager.getByName biomemgr n with
    | none =>
      simp only [List.mem_cons, exists_eq_or_imp, hb]
      simp
    | some b =>
      simp only [List.mem_cons, exists_eq_or_imp, hb, Finset.mem_insert]
      constructor
      · rintro ((h | h) | h)
        · exact Or.inr (Or.inl ⟨b, rfl, h.symm⟩)
        · exact Or.inl h
        · exact Or.inr (Or.inr h)
      · rintro (h | ⟨b2, h2, h3⟩ | h)
        · exact Or.inl (Or.inr h)
        · cases h2; exact Or.inl (Or.inl h3.symm)
        · exact Or.inr h

theorem add_success {α : Type} (rejects : List α → α → Bool) (setId : α → Nat → α)
    (elems : List α) (e : α) (h : (GenElementManager.add rejects setId elems e).1 ≠ U32_MAX) :
    (GenElementManager.add rejects setId elems e).2 = elems ++ [setId e elems.length] := by
  unfold GenElementManager.add at h ⊢
  split_ifs at h ⊢ with hc
  · exact absurd rfl h
  · rfl

theorem regDecoSimple_frame {σ : Type} (env : Env σ) (t : LuaTable) (d : Decoration σ)
    (v : World σ) :
    (regDecoSimple env t d v).2.1.biomes = d.biomes
    ∧ (regDecoSimple env t d v).2.2.decomgr = v.decomgr := by
  simp only [regDecoSimple]
  split_ifs <;> simp [decomgr_addNodeLists]

theorem regDecoSchematic_frame {σ : Type} (env : Env σ) (t : LuaTable) (d : Decoration σ)
    (res : Bool × Decoration σ) (h : regDecoSchematic env t d = some res) :
    res.2.biomes = d.biomes := by
  unfold regDecoSchematic at h
  simp only at h
  split at h
  · cases h
  · split at h
    · cases h; rfl
    · cases h; rfl

theorem register_decoration_success {σ : Type} (env : Env σ) (t : LuaTable) (w : World σ)
    (r : Result σ) (h : l_register_decoration env t w = some r) (hret : r.ret ≠ []) :
    ∃ d, r.world.decomgr = w.decomgr ++ [d]
      ∧ d.biomes = insertBiomes (env.narrow "biomes") w.biomemgr
          (t.getstringlistfield "biomes") ∅ := by
  unfold l_register_decoration at h
  by_cases hc : env.deco_create (getenumfield t "deco_type" es_DecorationType none) = true
  swap
  · simp only [hc, Bool.not_false, if_true] at h
    cases h
    exact absurd rfl hret
  simp only [hc, Bool.not_true, Bool.false_eq_true, if_false] at h
  by_cases hs : env.narrow "sidelen" (getintfield_default t "sidelen" 8) ≤ 0
  · simp only [hs, if_true] at h
    cases h
    exact absurd rfl hret
  simp only [hs, if_false] at h
  -- the outcome of the type-specific switch
  split at h
  · cases h
  rename_i res hres
  have hbm : insertBiomes (env.narrow "biomes")
        ((w.new.2).addNodeLists (t.getstringlistfield "place_on")
          ⟨w.new.1, .c_place_on⟩).biomemgr (t.getstringlistfield "biomes") ∅
      = insertBiomes (env.narrow "biomes") w.biomemgr (t.getstringlistfield "biomes") ∅ := by
    rw [biomemgr_addNodeLists]
    rfl
  have hfin : res.2.1.biomes = insertBiomes (env.narrow "biomes") w.biomemgr
        (t.getstringlistfield "biomes") ∅
      ∧ res.2.2.decomgr = w.decomgr := by
    split at hres
    · cases hres
      refine ⟨((regDecoSimple_frame _ _ _ _).1).trans hbm, ?_⟩
      rw [(regDecoSimple_frame _ _ _ _).2, decomgr_addNodeLists]
      rfl
    · split at hres
      · cases hres
      · rename_i res2 hres2
        cases hres
        refine ⟨(regDecoSchematic_frame _ _ _ _ hres2).trans hbm, ?_⟩
        simp only [decomgr_addNodeLists]
        rfl
    · cases hres
      refine ⟨hbm, ?_⟩
      simp only [decomgr_addNodeLists]
      rfl
    · cases hres
      refine ⟨hbm, ?_⟩
      simp only [decomgr_addNodeLists]
      rfl
  split_ifs at h with h1 h2
  · cases h
    exact absurd rfl hret
  · cases h
    exact absurd rfl hret
  · cases h
    refine ⟨Decoration.setId res.2.1 res.2.2.decomgr.length, ?_, ?_⟩
    · show (GenElementManager.add env.deco_rejects Decoration.setId res.2.2.decomgr res.2.1).2 = _
      rw [add_success _ _ _ _ h2, hfin.2]
    · exact hfin.1

/-- C2, amended: the biome ids a decoration records are fixed when the
decoration is registered.  A successful `l_register_decoration` adds one record
to the decoration registry, and a value is in its `biomes` set exactly when it
is the id, as stored in the element type of the set, of the biome that
`getByName` finds, in the biome registry as it is at that moment, for one of the
names of the "biomes" list; registering a biome afterwards changes no
decoration record. -/
theorem register_decoration_records_registered_biomes {σ : Type} (env : Env σ) (t : LuaTable)
    (w : World σ) (r : Result σ) (h : l_register_decoration env t w = some r)
    (hret : r.ret ≠ []) :
    (∃ d, r.world.decomgr = w.decomgr ++ [d]
      ∧ ∀ i, i ∈ d.biomes ↔
          ∃ name ∈ t.getstringlistfield "biomes", ∃ b,
            BiomeManager.getByName w.biomemgr name = some b ∧ env.narrow "biomes" b.id = i)
    ∧ ∀ (tB : LuaTable) (v : World σ), (l_register_biome env tB v).world.decomgr = v.decomgr := by
  refine ⟨?_, ?_⟩
  · obtain ⟨d, hd, hb⟩ := register_decoration_success env t w r h hret
    refine ⟨d, hd, fun i => ?_⟩
    rw [hb, mem_insertBiomes]
    simp
  · intro tB v
    unfold l_register_biome
    simp only
    split_ifs <;> rfl

theorem register_decoration_records_registered_biomes_witness :
    (l_register_decoration demoEnv cactusDeco desertWorld = some cactusResult
      ∧ cactusResult.ret ≠ [])
    ∧ ((∃ d, cactusResult.world.decomgr = desertWorld.decomgr ++ [d]
        ∧ ∀ i, i ∈ d.biomes ↔
            ∃ name ∈ cactusDeco.getstringlistfield "biomes", ∃ b,
              BiomeManager.getByName desertWorld.biomemgr name = some b
                ∧ demoEnv.narrow "biomes" b.id = i)
      ∧ ∀ (tB : LuaTable) (v : World Unit),
          (l_register_biome demoEnv tB v).world.decomgr = v.decomgr) :=
  ⟨⟨rfl, List.ne_nil_of_length_pos (by decide)⟩,
   register_decoration_records_registered_biomes demoEnv cactusDeco desertWorld cactusResult
      rfl (List.ne_nil_of_length_pos (by decide))⟩

/-! ## C7 -/

theorem loop_eq_assignAll (number2str : Int → String) (kv : List (LuaValue × LuaValue))
    (m : String → Option String)
    (h : ∀ x ∈ kv, (read_replacement number2str x.1 x.2).isSome = true) :
    read_schematic_replacements_loop number2str kv m
      = some (assignAll (kv.filterMap (fun x => read_replacement number2str x.1 x.2)) m) := by
  induction kv generalizing m with
  | nil => rfl
  | cons x rest ih =>
    obtain ⟨k, v⟩ := x
    have hx := h (k, v) (List.mem_cons_self _ _)
    cases hr : read_replacement number2str k v with
    | none => simp [hr] at hx
    | some q =>
      obtain ⟨a, b⟩ := q
      simp only [read_schematic_replacements_loop, hr, List.filterMap_cons, assignAll,
        List.foldl_cons]
      exact ih _ (fun y hy => h y (List.mem_cons_of_mem _ hy))

theorem read_replacement_old (number2str : Int → String) (i : Int) (a b : String) :
    read_replacement number2str (.number i)
      (.table [(.number 1, .string a), (.number 2, .string b)]) = some (c_str a, c_str b) := by
  simp [read_replacement, lua_istable, lua_rawgeti, LuaValue.isNumber, lua_tostring]

theorem read_replacement_new (number2str : Int → String) (a b : String) :
    read_replacement number2str (.string a) (.string b) = some (c_str a, c_str b) := by
  simp [read_replacement, lua_istable, lua_tostring]

theorem filterMap_oldFormPairs (number2str : Int → String) (ps : List (String × String)) :
    (oldFormPairs ps).filterMap (fun x => read_replacement number2str x.1 x.2)
      = ps.map cutPair := by
  unfold oldFormPairs
  rw [List.filterMap_map]
  have : ((fun x : LuaValue × LuaValue => read_replacement number2str x.1 x.2) ∘
      (fun p : Nat × String × String =>
        (LuaValue.number ((p.1 : Int) + 1),
         LuaValue.table [(.number 1, .string p.2.1), (.number 2, .string p.2.2)])))
      = some ∘ (cutPair ∘ Prod.snd) := by
    funext p
    exact read_replacement_old number2str ((p.1 : Int) + 1) p.2.1 p.2.2
  rw [this, List.filterMap_eq_map, ← List.map_map, List.enum_map_snd]

theorem filterMap_newFormPairs (number2str : Int → String) (ps : List (String × String)) :
    (newFormPairs ps).filterMap (fun x => read_replacement number2str x.1 x.2)
      = ps.map cutPair := by
  unfold newFormPairs
  rw [List.filterMap_map]
  have : ((fun x : LuaValue × LuaValue => read_replacement number2str x.1 x.2) ∘
      (fun p : String × String => (LuaValue.string p.1, LuaValue.string p.2)))
      = some ∘ cutPair := by
    funext p
    exact read_replacement_new number2str p.1 p.2
  rw [this, List.filterMap_eq_map]

theorem assignAll_of_not_mem (qs : List (String × String)) (m : String → Option String)
    (k : String) (h : k ∉ qs.map Prod.fst) : assignAll qs m k = m k := by
  unfold assignAll
  induction qs generalizing m with
  | nil => rfl
  | cons q rest ih =>
    simp only [List.map_cons, List.mem_cons, not_or] at h
    simp only [List.foldl_cons]
    rw [ih _ h.2, Function.update_noteq h.1]

theorem assignAll_of_mem (qs : List (String × String)) (m : String → Option String)
    (k t : String) (hnd : (qs.map Prod.fst).Nodup) (h : (k, t) ∈ qs) :
    assignAll qs m k = some t := by
  induction qs generalizing m with
  | nil => cases h
  | cons q rest ih =>
    simp only [List.map_cons, List.nodup_cons] at hnd
    rcases List.mem_cons.mp h with h1 | h1
    · subst h1
      have := assignAll_of_not_mem rest (Function.update m k (some t)) k hnd.1
      simp only [assignAll, List.foldl_cons] at this ⊢
      rw [this, Function.update_same]
    · simp only [assignAll, List.foldl_cons]
      exact ih _ hnd.2 h1

theorem replacementMap_of_not_mem (ps : List (String × String)) (m : String → Option String)
    (k : String) (h : k ∉ ps.map Prod.fst) : replacementMap ps m k = m k := by
  unfold replacementMap
  have : ps.find? (fun p => p.1 == k) = none := by
    rw [List.find?_eq_none]
    intro x hx hk
    exact h (List.mem_map.mpr ⟨x, hx, by simpa using hk⟩)
  rw [this]

theorem replacementMap_of_mem (ps : List (String × String)) (m : String → Option String)
    (k t : String) (hnd : (ps.map Prod.fst).Nodup) (h : (k, t) ∈ ps) :
    replacementMap ps m k = some t := by
  unfold replacementMap
  induction ps with
  | nil => cases h
  | cons q rest ih =>
    simp only [List.map_cons, List.nodup_cons] at hnd
    rcases List.mem_cons.mp h with h1 | h1
    · subst h1
      simp
    · have hne : ¬ q.1 = k := by
        intro hq
        exact hnd.1 (List.mem_map.mpr ⟨(k, t), h1, hq.symm⟩)
      have hb : (q.1 == k) = false := by simpa using hne
      simp only [List.find?_cons, hb]
      exact ih hnd.2 h1

theorem assignAll_perm (ps qs : List (String × String)) (m : String → Option String)
    (hnd : (ps.map Prod.fst).Nodup) (hp : qs.Perm ps) :
    assignAll qs m = replacementMap ps m := by
  have hndq : (qs.map Prod.fst).Nodup := (hp.map Prod.fst).nodup_iff.mpr hnd
  funext k
  by_cases hk : k ∈ ps.map Prod.fst
  · obtain ⟨x, hx, hxk⟩ := List.mem_map.mp hk
    obtain ⟨a, t⟩ := x
    simp only at hxk
    subst hxk
    rw [assignAll_of_mem qs m a t hndq (hp.mem_iff.mpr hx),
      replacementMap_of_mem ps m a t hnd hx]
  · have hkq : k ∉ qs.map Prod.fst := fun h => hk ((hp.map Prod.fst).mem_iff.mp h)
    rw [assignAll_of_not_mem qs m k hkq, replacementMap_of_not_mem ps m k hk]

/-- C7 fails on the code: the one pair (`"a"`, `nulText`) has a string with
a NUL in it; read from the old form and from the new form, the map sends `"a"`
to `"x"`, the text before the NUL, and not to the string of the pair. -/
theorem read_schematic_replacements_cuts_at_nul :
    ([("a", nulText)].map Prod.fst).Nodup
    ∧ (read_schematic_replacements (fun n => toString n) (fun _ => none)
          (.table (oldFormPairs [("a", nulText)]))).map (fun m => m "a") = some (some "x")
    ∧ (read_schematic_replacements (fun n => toString n) (fun _ => none)
          (.table (newFormPairs [("a", nulText)]))).map (fun m => m "a") = some (some "x")
    ∧ nulText ≠ "x" := by
  decide

/-- C7, amended: the strings of the pairs are stored cut at their first NUL
(`cutPair`).  For pairs whose `from_i`, so cut, are pairwise distinct, reading
the old form and reading the new form (each in whatever order `lua_next` visits
its pairs) into a map `m0` both return, and both yield the same table
`replacementMap (ps.map cutPair) m0`; read into the empty map this table sends
`k` to `t` exactly when `(k, t)` is one of the cut pairs, and in general it
leaves every key that is no cut `from_i` as it was in `m0`. -/
theorem read_schematic_replacements_forms_agree (number2str : Int → String)
    (ps : List (String × String))
    (hnd : ((ps.map cutPair).map Prod.fst).Nodup) (kvOld kvNew : List (LuaValue × LuaValue))
    (hOld : kvOld.Perm (oldFormPairs ps)) (hNew : kvNew.Perm (newFormPairs ps))
    (m0 : String → Option String) :
    read_schematic_replacements number2str m0 (.table kvOld)
        = some (replacementMap (ps.map cutPair) m0)
    ∧ read_schematic_replacements number2str m0 (.table kvNew)
        = some (replacementMap (ps.map cutPair) m0)
    ∧ (∀ k t, replacementMap (ps.map cutPair) (fun _ => none) k = some t
        ↔ (k, t) ∈ ps.map cutPair)
    ∧ (∀ k, k ∉ (ps.map cutPair).map Prod.fst →
        replacementMap (ps.map cutPair) m0 k = m0 k) := by
  have hread : ∀ (kv src : List (LuaValue × LuaValue)), kv.Perm src →
      (∀ x ∈ src, (read_replacement number2str x.1 x.2).isSome = true) →
      src.filterMap (fun x => read_replacement number2str x.1 x.2) = ps.map cutPair →
      read_schematic_replacements number2str m0 (.table kv)
        = some (replacementMap (ps.map cutPair) m0) := by
    intro kv src hp hsome hdec
    unfold read_schematic_replacements lua_pairs
    rw [loop_eq_assignAll number2str kv m0 (fun x hx => hsome x (hp.mem_iff.mp hx))]
    have hq : (kv.filterMap (fun x => read_replacement number2str x.1 x.2)).Perm
        (ps.map cutPair) := by
      rw [← hdec]
      exact hp.filterMap _
    rw [assignAll_perm (ps.map cutPair) _ m0 hnd hq]
  refine ⟨?_, ?_, ?_, ?_⟩
  · refine hread kvOld (oldFormPairs ps) hOld ?_ (filterMap_oldFormPairs number2str ps)
    intro x hx
    unfold oldFormPairs at hx
    obtain ⟨p, _, rfl⟩ := List.mem_map.mp hx
    rw [read_replacement_old]
    rfl
  · refine hread kvNew (newFormPairs ps) hNew ?_ (filterMap_newFormPairs number2str ps)
    intro x hx
    unfold newFormPairs at hx
    obtain ⟨p, _, rfl⟩ := List.mem_map.mp hx
    rw [read_replacement_new]
    rfl
  · intro k t
    constructor
    · intro h
      by_cases hk : k ∈ (ps.map cutPair).map Prod.fst
      · obtain ⟨x, hx, hxk⟩ := List.mem_map.mp hk
        obtain ⟨a, b⟩ := x
        simp only at hxk
        subst hxk
        rw [replacementMap_of_mem (ps.map cutPair) _ a b hnd hx] at h
        cases h
        exact hx
      · rw [replacementMap_of_not_mem (ps.map cutPair) _ k hk] at h
        cases h
    · intro h
      exact replacementMap_of_mem (ps.map cutPair) _ k t hnd h
  · intro k hk
    exact replacementMap_of_not_mem (ps.map cutPair) m0 k hk

theorem read_schematic_replacements_forms_agree_witness :
    (((demoReplacements.map cutPair).map Prod.fst).Nodup
      ∧ (oldFormPairs demoReplacements).Perm (oldFormPairs demoReplacements)
      ∧ (newFormPairs demoReplacements).reverse.Perm (newFormPairs demoReplacements))
    ∧ (read_schematic_replacements demoEnv.number2str (fun _ => none)
          (.table (oldFormPairs demoReplacements))
          = some (replacementMap (demoReplacements.map cutPair) (fun _ => none))
      ∧ read_schematic_replacements demoEnv.number2str (fun _ => none)
            (.table (newFormPairs demoReplacements).reverse)
          = some (replacementMap (demoReplacements.map cutPair) (fun _ => none))
      ∧ (∀ k t, replacementMap (demoReplacements.map cutPair) (fun _ => none) k = some t
          ↔ (k, t) ∈ demoReplacements.map cutPair)
      ∧ (∀ k, k ∉ (demoReplacements.map cutPair).map Prod.fst →
          replacementMap (demoReplacements.map cutPair) (fun _ => none) k
            = (fun _ => none) k)) :=
  ⟨⟨by decide, List.Perm.refl _, List.reverse_perm _⟩,
   read_schematic_replacements_forms_agree demoEnv.number2str demoReplacements (by decide)
      (oldFormPairs demoReplacements) (newFormPairs demoReplacements).reverse
      (List.Perm.refl _) (List.reverse_perm _) (fun _ => none)⟩

/-! ## C10 -/

theorem string_to_enum_es_Rotation (s : String) :
    (string_to_enum es_Rotation s).getD ROTATE_0 = rotationNamed s := by
  unfold string_to_enum es_Rotation rotationNamed
  by_cases h0 : s = "0"
  · subst h0; rfl
  by_cases h1 : s = "90"
  · subst h1; rfl
  by_cases h2 : s = "180"
  · subst h2; rfl
  by_cases h3 : s = "270"
  · subst h3; rfl
  by_cases h4 : s = "random"
  · subst h4; rfl
  have e0 : ("0" == s) = false := by simpa using fun h => h0 h.symm
  have e1 : ("90" == s) = false := by simpa using fun h => h1 h.symm
  have e2 : ("180" == s) = false := by simpa using fun h => h2 h.symm
  have e3 : ("270" == s) = false := by simpa using fun h => h3 h.symm
  have e4 : ("random" == s) = false := by simpa using fun h => h4 h.symm
  simp only [List.find?_cons, e0, e1, e2, e3, e4, List.find?_nil, h0, h1, h2, h3, h4, if_false]
  rfl

/-- C10 fails on the code: with the number 90 as argument 3 (not a string),
and with the four-character string `90`, NUL, `x` as argument 3 (a string equal
to none of the five names), `placeStructure` is called with `ROTATE_90`. -/
theorem place_schematic_rotates_on_number_and_nul :
    lua_type_is_string (numberArgs 3) = false
    ∧ l_place_schematic loadingEnv (fun _ => ⟨0, 0, 0⟩) recordPlacement numberArgs []
        = some (1, [(⟨0, 0, 0⟩, 0, ROTATE_90, true)])
    ∧ nulRotation ∉ ["0", "90", "180", "270", "random"]
    ∧ l_place_schematic loadingEnv (fun _ => ⟨0, 0, 0⟩) recordPlacement nulArgs []
        = some (1, [(⟨0, 0, 0⟩, 0, ROTATE_90, true)]) :=
  ⟨by decide, by decide, by decide, by decide⟩

/-- C10, amended: when the replacement table (argument 4, if a table) is read
into `replace_names`: if the schematic loads, `l_place_schematic` calls
`placeStructure` once, with the rotation read from argument 3 and the
force-placement flag read from argument 5, and returns 1; if it does not load,
the call returns 0 with the map untouched (this for every map type and every
`placeStructure`, so `placeStructure` is not called).  The flag is `true`
unless argument 5 is a boolean, then it is that boolean.  The rotation is
`ROTATE_0` unless `lua_isstring` holds for argument 3 (a string, or a number,
which Lua converts to its text); then it is the rotation named by that text cut
at its first NUL ("0", "90", "180", "270", "random"; `ROTATE_0` for any other
text). -/
theorem place_schematic_arguments {σ μ : Type} (env : Env σ) (read_v3s16 : LuaValue → v3s16)
    (placeStructure : μ → v3s16 → Nat → Rotation → Bool → σ → μ) (args : Nat → LuaValue)
    (map : μ) (replace_names : String → Option String)
    (hrep : (if lua_istable (args 4) then
              read_schematic_replacements env.number2str (fun _ => none) (args 4)
            else some (fun _ => none)) = some replace_names) :
    (∀ schem, env.get_schematic (args 2) replace_names = some schem →
        l_place_schematic env read_v3s16 placeStructure args map
          = some (1, placeStructure map (read_v3s16 (args 1)) 0
              (read_rotation env.number2str (args 3)) (read_force_placement (args 5)) schem))
    ∧ (env.get_schematic (args 2) replace_names = none →
        l_place_schematic env read_v3s16 placeStructure args map = some (0, map))
    ∧ (∀ v, read_force_placement v = match v with | .boolean b => b | _ => true)
    ∧ (∀ v, read_rotation env.number2str v
        = if lua_isstring v = true then
            rotationNamed (c_str ((lua_tostring env.number2str v).getD ""))
          else ROTATE_0)
    ∧ (∀ s, read_rotation env.number2str (.string s) = rotationNamed (c_str s)) := by
  refine ⟨?_, ?_, ?_, ?_, ?_⟩
  · intro schem hs
    unfold l_place_schematic
    simp only [hrep, hs]
  · intro hs
    unfold l_place_schematic
    simp only [hrep, hs]
  · intro v
    cases v <;> rfl
  · intro v
    cases v with
    | string x =>
      simp only [read_rotation, lua_isstring, lua_tostring, if_true, Option.getD_some]
      exact string_to_enum_es_Rotation _
    | number n =>
      simp only [read_rotation, lua_isstring, lua_tostring, if_true, Option.getD_some]
      exact string_to_enum_es_Rotation _
    | nil => rfl
    | boolean b => rfl
    | table kv => rfl
  · intro x
    simp only [read_rotation, lua_isstring, lua_tostring, if_true]
    exact string_to_enum_es_Rotation _

theorem place_schematic_arguments_witness :
    ((if lua_istable (demoArgs 4) then
          read_schematic_replacements loadingEnv.number2str (fun _ => none) (demoArgs 4)
        else some (fun _ => none)) = some (fun _ => none)
      ∧ loadingEnv.get_schematic (demoArgs 2) (fun _ => none) = some ()
      ∧ demoEnv.get_schematic (demoArgs 2) (fun _ => none) = none)
    ∧ l_place_schematic loadingEnv (fun _ => ⟨0, 0, 0⟩) recordPlacement demoArgs []
        = some (1, recordPlacement [] ⟨0, 0, 0⟩ 0
            (read_rotation loadingEnv.number2str (demoArgs 3))
            (read_force_placement (demoArgs 5)) ())
    ∧ l_place_schematic demoEnv (fun _ => ⟨0, 0, 0⟩) recordPlacement demoArgs [] = some (0, []) :=
  ⟨⟨rfl, rfl, rfl⟩,
   (place_schematic_arguments loadingEnv (fun _ => ⟨0, 0, 0⟩) recordPlacement demoArgs []
      (fun _ => none) rfl).1 () rfl,
   (place_schematic_arguments demoEnv (fun _ => ⟨0, 0, 0⟩) recordPlacement demoArgs []
      (fun _ => none) rfl).2.1 rfl⟩

/-! ## C8 -/

theorem gennotify_loop_frame (gennotify : Nat) (rows : List (String × Nat)) (i : Nat)
    (tbl : List (LuaValue × LuaValue)) (gen_notifications : Nat → Option (List v3s16)) (j : Nat)
    (h : ∀ (k : Nat) (hk : k < rows.length),
      gennotify &&& (rows.get ⟨k, hk⟩).2 ≠ 0 → i + k ≠ j) :
    (gennotify_loop gennotify rows i tbl gen_notifications).2 j = gen_notifications j := by
  induction rows generalizing i tbl gen_notifications with
  | nil => rfl
  | cons row rest ih =>
    obtain ⟨name, flag⟩ := row
    have hrest : ∀ (k : Nat) (hk : k < rest.length),
        gennotify &&& (rest.get ⟨k, hk⟩).2 ≠ 0 → i + 1 + k ≠ j := by
      intro k hk hen
      have := h (k + 1) (Nat.succ_lt_succ hk) hen
      omega
    unfold gennotify_loop
    by_cases hz : gennotify &&& flag = 0
    · simp only [hz, if_true]
      exact ih (i + 1) tbl gen_notifications hrest
    · simp only [hz, if_false]
      cases hg : gen_notifications i with
      | none => rfl
      | some posvec =>
        simp only []
        rw [ih (i + 1) _ _ hrest]
        have hij : j ≠ i := by
          have := h 0 (Nat.succ_pos _) hz
          omega
        exact Function.update_noteq hij _ _

theorem gennotifyFields_congr (gennotify : Nat) (rows : List (String × Nat)) (i : Nat)
    (g1 g2 : Nat → Option (List v3s16)) (h : ∀ j, i ≤ j → g1 j = g2 j) :
    gennotifyFields gennotify rows i g1 = gennotifyFields gennotify rows i g2 := by
  induction rows generalizing i with
  | nil => rfl
  | cons row rest ih =>
    obtain ⟨name, flag⟩ := row
    have hr := ih (i + 1) (fun j hj => h j (by omega))
    simp only [gennotifyFields, hr, h i (Nat.le_refl i)]

/-- Reading "gennotify" when every enabled kind has a list: the loop runs to
its end, the result table gets one field per enabled kind holding the recorded
positions in recorded order, and the list of every enabled kind is empty
afterwards. -/
theorem gennotify_loop_complete (gennotify : Nat) (rows : List (String × Nat)) (i : Nat)
    (tbl : List (LuaValue × LuaValue)) (gen_notifications : Nat → Option (List v3s16))
    (h : ∀ (k : Nat) (hk : k < rows.length),
      gennotify &&& (rows.get ⟨k, hk⟩).2 ≠ 0 → gen_notifications (i + k) ≠ none) :
    (gennotify_loop gennotify rows i tbl gen_notifications).1
        = some ((gennotifyFields gennotify rows i gen_notifications).foldl
            (fun t f => lua_setfield t f.1 (luaArray (f.2.map push_v3s16))) tbl)
    ∧ ∀ (k : Nat) (hk : k < rows.length), gennotify &&& (rows.get ⟨k, hk⟩).2 ≠ 0 →
        (gennotify_loop gennotify rows i tbl gen_notifications).2 (i + k) = some [] := by
  induction rows generalizing i tbl gen_notifications with
  | nil =>
    exact ⟨rfl, fun k hk => absurd hk (Nat.not_lt_zero k)⟩
  | cons row rest ih =>
    obtain ⟨name, flag⟩ := row
    by_cases hz : gennotify &&& flag = 0
    · have hrest : ∀ (k : Nat) (hk : k < rest.length),
          gennotify &&& (rest.get ⟨k, hk⟩).2 ≠ 0 → gen_notifications (i + 1 + k) ≠ none := by
        intro k hk hen
        have := h (k + 1) (Nat.succ_lt_succ hk) hen
        rwa [show i + (k + 1) = i + 1 + k by omega] at this
      have hi := ih (i + 1) tbl gen_notifications hrest
      have hl : gennotify_loop gennotify ((name, flag) :: rest) i tbl gen_notifications
          = gennotify_loop gennotify rest (i + 1) tbl gen_notifications := by
        simp only [gennotify_loop, hz, if_true]
      rw [hl]
      refine ⟨by simp only [gennotifyFields, hz, if_true]; exact hi.1, ?_⟩
      intro k hk hen
      cases k with
      | zero => exact absurd hz hen
      | succ k =>
        have := hi.2 k (Nat.lt_of_succ_lt_succ hk) hen
        rwa [show i + 1 + k = i + (k + 1) by omega] at this
    · have h0 := h 0 (Nat.succ_pos _) hz
      cases hg : gen_notifications i with
      | none => exact absurd hg h0
      | some posvec =>
        have hupd : ∀ j, i + 1 ≤ j →
            Function.update gen_notifications i (some []) j = gen_notifications j := by
          intro j hj
          exact Function.update_noteq (by omega) _ _
        have hrest : ∀ (k : Nat) (hk : k < rest.length),
            gennotify &&& (rest.get ⟨k, hk⟩).2 ≠ 0 →
            Function.update gen_notifications i (some []) (i + 1 + k) ≠ none := by
          intro k hk hen
          rw [hupd _ (by omega)]
          have := h (k + 1) (Nat.succ_lt_succ hk) hen
          rwa [show i + (k + 1) = i + 1 + k by omega] at this
        have hi := ih (i + 1) (lua_setfield tbl name (luaArray (posvec.map push_v3s16)))
          (Function.update gen_notifications i (some [])) hrest
        have hl : gennotify_loop gennotify ((name, flag) :: rest) i tbl gen_notifications
            = gennotify_loop gennotify rest (i + 1)
                (lua_setfield tbl name (luaArray (posvec.map push_v3s16)))
                (Function.update gen_notifications i (some [])) := by
          simp only [gennotify_loop, hz, if_false, hg]
        rw [hl]
        refine ⟨?_, ?_⟩
        · rw [hi.1, gennotifyFields_congr gennotify rest (i + 1) _ gen_notifications hupd]
          simp only [gennotifyFields, hz, if_false, hg, Option.getD_some, List.foldl_cons]
        · intro k hk hen
          cases k with
          | zero =>
            rw [gennotify_loop_frame gennotify rest (i + 1) _ _ (i + 0)
              (fun k _ _ => by omega)]
            exact Function.update_same _ _ _
          | succ k =>
            have := hi.2 k (Nat.lt_of_succ_lt_succ hk) hen
            rwa [show i + 1 + k = i + (k + 1) by omega] at this

theorem gennotify_loop_missing (gennotify : Nat) (rows : List (String × Nat)) (i : Nat)
    (tbl : List (LuaValue × LuaValue)) (gen_notifications : Nat → Option (List v3s16))
    (h : ∃ (k : Nat) (hk : k < rows.length),
      gennotify &&& (rows.get ⟨k, hk⟩).2 ≠ 0 ∧ gen_notifications (i + k) = none) :
    (gennotify_loop gennotify rows i tbl gen_notifications).1 = none := by
  induction rows generalizing i tbl gen_notifications with
  | nil =>
    obtain ⟨k, hk, _⟩ := h
    exact absurd hk (Nat.not_lt_zero k)
  | cons row rest ih =>
    obtain ⟨name, flag⟩ := row
    obtain ⟨k, hk, hen, hnone⟩ := h
    by_cases hz : gennotify &&& flag = 0
    · have hl : gennotify_loop gennotify ((name, flag) :: rest) i tbl gen_notifications
          = gennotify_loop gennotify rest (i + 1) tbl gen_notifications := by
        simp only [gennotify_loop, hz, if_true]
      rw [hl]
      cases k with
      | zero => exact absurd hz hen
      | succ k =>
        refine ih (i + 1) tbl gen_notifications ⟨k, Nat.lt_of_succ_lt_succ hk, hen, ?_⟩
        rwa [show i + 1 + k = i + (k + 1) by omega]
    · cases hg : gen_notifications i with
      | none => simp only [gennotify_loop, hz, if_false, hg]
      | some posvec =>
        have hl : gennotify_loop gennotify ((name, flag) :: rest) i tbl gen_notifications
            = gennotify_loop gennotify rest (i + 1)
                (lua_setfield tbl name (luaArray (posvec.map push_v3s16)))
                (Function.update gen_notifications i (some [])) := by
          simp only [gennotify_loop, hz, if_false, hg]
        rw [hl]
        cases k with
        | zero => rw [Nat.add_zero, hg] at hnone; cases hnone
        | succ k =>
          refine ih (i + 1) _ _ ⟨k, Nat.lt_of_succ_lt_succ hk, hen, ?_⟩
          rw [Function.update_noteq (by omega)]
          rwa [show i + 1 + k = i + (k + 1) by omega]

theorem gennotifyFields_sublist (gennotify : Nat) (rows : List (String × Nat)) (i : Nat)
    (gen_notifications : Nat → Option (List v3s16)) :
    ((gennotifyFields gennotify rows i gen_notifications).map Prod.fst).Sublist
      (rows.map Prod.fst) := by
  induction rows generalizing i with
  | nil => exact List.Sublist.slnil
  | cons row rest ih =>
    obtain ⟨name, flag⟩ := row
    by_cases hz : gennotify &&& flag = 0
    · simp only [gennotifyFields, hz, if_true, List.map_cons]
      exact List.Sublist.cons _ (ih (i + 1))
    · simp only [gennotifyFields, hz, if_false, List.map_cons]
      exact List.Sublist.cons₂ _ (ih (i + 1))

theorem foldl_setfield_fresh (fields : List (String × List v3s16))
    (tbl : List (LuaValue × LuaValue)) (hnd : (fields.map Prod.fst).Nodup)
    (hfresh : ∀ f ∈ fields, tbl.any (fun p => p.1.isString f.1) = false) :
    fields.foldl (fun t f => lua_setfield t f.1 (luaArray (f.2.map push_v3s16))) tbl
      = tbl ++ fields.map (fun f => (LuaValue.string f.1, luaArray (f.2.map push_v3s16))) := by
  induction fields generalizing tbl with
  | nil => simp
  | cons f rest ih =>
    simp only [List.map_cons, List.nodup_cons] at hnd
    have h1 : lua_setfield tbl f.1 (luaArray (f.2.map push_v3s16))
        = tbl ++ [(LuaValue.string f.1, luaArray (f.2.map push_v3s16))] := by
      unfold lua_setfield
      rw [hfresh f (List.mem_cons_self _ _)]
      rfl
    simp only [List.foldl_cons, h1]
    rw [ih _ hnd.2]
    · simp
    · intro g hg
      have hne : ¬ f.1 = g.1 := fun he => hnd.1 (he ▸ List.mem_map_of_mem Prod.fst hg)
      rw [List.any_append, hfresh g (List.mem_cons_of_mem _ hg), Bool.false_or]
      simp [LuaValue.isString, hne]

theorem get_mapgen_object_gennotify_eq (number2str : Int → String)
    (flagdesc_gennotify : List (String × Nat)) (emerge : EmergeManager) (mg : Mapgen)
    (h : emerge.currentMapgen = some mg) :
    l_get_mapgen_object number2str flagdesc_gennotify (.string "gennotify") emerge
      = some ((match (gennotify_loop emerge.gennotify flagdesc_gennotify 0 []
                  mg.gen_notifications).1 with
               | none => []
               | some tbl => [LuaValue.table tbl]),
              { emerge with currentMapgen := some { mg with
                  gen_notifications := (gennotify_loop emerge.gennotify flagdesc_gennotify 0 []
                    mg.gen_notifications).2 } }) := by
  have e : string_to_enum es_MapgenObject (c_str "gennotify") = some MGOBJ_GENNOTIFY := by
    decide
  simp only [l_get_mapgen_object, lua_tostring, Option.getD_some, e, h]
  cases hloop : gennotify_loop emerge.gennotify flagdesc_gennotify 0 [] mg.gen_notifications with
  | mk a gn =>
    cases a <;> rfl

end ModApiMapgen
